import Mathlib

/-!
Shallow embedding of the kennelOS_ETL transformation and analytics core
(`src/etl/transform.py`, `src/dashboard/analytics/{config,pet_wellness,
environmental,operations}.py`) together with theorems settling the frozen
claims about its specification.

Modelling conventions:
* pandas timestamps are modelled as `Int` seconds; `.dt.date` is floor
  division by 86400, `.dt.hour` is the hour of the remainder.
* float columns are modelled as `Rat`; `pd.to_numeric(..., errors='coerce')`
  results are `Option Rat` (`none` = NaN, dropped by the source's filters
  exactly where a NaN comparison is false / `dropna` applies).
* `DataFrame.mean()` of an empty column is NaN in pandas; it is modelled as
  `Option Rat` with `none` for the empty case.
* `groupby` is modelled as the list of sorted distinct keys paired with the
  filtered rows for each key (pandas sorts group keys by default).
* `round(x, n)` (Python / numpy half-to-even rounding) is modelled exactly
  on rationals by `pyRound`.
-/

/-- Sum of a list of rationals (`Series.sum`; pandas sums an empty column to 0). -/
def pySum (xs : List Rat) : Rat := xs.sum

/-- Mean of a column, `none` when the column is empty (pandas yields NaN). -/
def pyMean (xs : List Rat) : Option Rat :=
  if xs.isEmpty then none else some (pySum xs / xs.length)

/-- Nearest integer with ties to even, Python's `round` on exact values. -/
def halfEvenInt (q : Rat) : Int :=
  let f : Int := ⌊q⌋
  if q - f < 1/2 then f
  else if q - f > 1/2 then f + 1
  else if f % 2 = 0 then f else f + 1

/-- Python's `round(x, n)` on exact rational values (half-to-even). -/
def pyRound (n : Nat) (q : Rat) : Rat :=
  (halfEvenInt (q * (10 ^ n : Nat)) : Rat) / ((10 ^ n : Nat) : Rat)

/-- Distinct keys of a column in pandas `groupby` order: sorted, no duplicates.
`le` is the (total, decidable) key order. -/
def groupKeys {α κ : Type} (le : κ → κ → Bool) (key : α → κ) [DecidableEq κ]
    (rows : List α) : List κ :=
  ((rows.map key).dedup).insertionSort (fun a b => le a b = true)

/-- Minimum of a timestamp column (`'min'` aggregate); groups are never empty,
the default 0 is unreachable. -/
def colMin (xs : List Int) : Int := xs.min?.getD 0

/-- Maximum of a timestamp column (`'max'` aggregate); groups are never empty,
the default 0 is unreachable. -/
def colMax (xs : List Int) : Int := xs.max?.getD 0

/-- Key order for `Int` group keys. -/
def intLe (a b : Int) : Bool := a ≤ b

/-- Key order for `String` group keys (pandas sorts object keys lexicographically). -/
def strLe (a b : String) : Bool := !(b < a)

/-- Key order for `(id, name)` group keys, lexicographic. -/
def idNameLe (a b : Nat × String) : Bool :=
  a.1 < b.1 || (a.1 = b.1 && strLe a.2 b.2)

/-- Key order for `(id, name, date)` group keys, lexicographic. -/
def idNameDateLe (a b : Nat × String × Int) : Bool :=
  a.1 < b.1 || (a.1 = b.1 && idNameLe (a.2.2.toNat, a.2.1) (b.2.2.toNat, b.2.1))

/-- Calendar date of a timestamp (`.dt.date`), as the day number. -/
def dateOf (ts : Int) : Int := ts.fdiv 86400

/-- Hour of day of a timestamp (`.dt.hour`). -/
def hourOf (ts : Int) : Int := (ts.emod 86400).fdiv 3600

/-! ## Configuration (`src/dashboard/analytics/config.py`) -/

/-- `ANALYSIS_WINDOWS` of `config.py`: time analysis windows in days. -/
structure AnalysisWindows where
  short_term : Int
  medium_term : Int
  long_term : Int
deriving Repr, DecidableEq

/-- The configured analysis windows: 7 / 30 / 90 days. -/
def ANALYSIS_WINDOWS : AnalysisWindows := { short_term := 7, medium_term := 30, long_term := 90 }

/-- `PET_WELLNESS` thresholds of `config.py`. -/
structure PetWellnessCfg where
  min_activity_minutes_per_day : Rat
  max_activity_minutes_per_day : Rat
  min_feeding_times_per_day : Rat
  max_feeding_times_per_day : Rat
  weight_change_alert_threshold : Rat
deriving Repr, DecidableEq

/-- The configured pet wellness thresholds. -/
def PET_WELLNESS : PetWellnessCfg :=
  { min_activity_minutes_per_day := 60, max_activity_minutes_per_day := 180,
    min_feeding_times_per_day := 2, max_feeding_times_per_day := 4,
    weight_change_alert_threshold := 5 }

/-- A two-tier threshold band (`temperature` / `humidity` entries of `ENVIRONMENT`). -/
structure Band where
  optimal_min : Rat
  optimal_max : Rat
  alert_min : Rat
  alert_max : Rat
deriving Repr, DecidableEq

/-- The `noise` entry of `ENVIRONMENT`. -/
structure NoiseCfg where
  normal_max : Rat
  alert_threshold : Rat
  critical_threshold : Rat
deriving Repr, DecidableEq

/-- `ENVIRONMENT` thresholds of `config.py`. -/
structure EnvironmentCfg where
  temperature : Band
  humidity : Band
  noise : NoiseCfg
deriving Repr, DecidableEq

/-- The configured environmental thresholds. -/
def ENVIRONMENT : EnvironmentCfg :=
  { temperature := { optimal_min := 68, optimal_max := 78, alert_min := 60, alert_max := 85 },
    humidity := { optimal_min := 40, optimal_max := 60, alert_min := 30, alert_max := 80 },
    noise := { normal_max := 40, alert_threshold := 45, critical_threshold := 50 } }

/-- `staff_performance` entry of `OPERATIONS`. -/
structure StaffPerfCfg where
  min_tasks_per_hour : Rat
  target_tasks_per_hour : Rat
  max_tasks_per_hour : Rat
deriving Repr, DecidableEq

/-- `grooming_frequency` entry of `OPERATIONS`. -/
structure GroomingCfg where
  target_days_between : Int
  alert_days_overdue : Int
deriving Repr, DecidableEq

/-- `OPERATIONS` thresholds of `config.py` (the `feeding_schedule` entry is not
consumed by any analyzer method and is not modelled). -/
structure OperationsCfg where
  staff_performance : StaffPerfCfg
  grooming_frequency : GroomingCfg
deriving Repr, DecidableEq

/-- The configured operations thresholds. -/
def OPERATIONS : OperationsCfg :=
  { staff_performance := { min_tasks_per_hour := 4/5, target_tasks_per_hour := 6/5,
                           max_tasks_per_hour := 2 },
    grooming_frequency := { target_days_between := 7, alert_days_overdue := 10 } }

/-- `days = days or ANALYSIS_WINDOWS[...]`: Python `or` falls back to the
window default when `days` is `None` (or the falsy `0`). -/
def resolveDays (days : Option Int) (window : Int) : Int :=
  match days with
  | none => window
  | some d => if d = 0 then window else d

/-! ## Transformer (`src/etl/transform.py`, class `DataTransformer`) -/

/-- A raw pet-activity record handed to `transform_pet_activities`.
`duration_minutes` holds the result of `pd.to_numeric(..., errors='coerce')`:
`none` models a value that failed numeric coercion (NaN). -/
structure RawActivity where
  pet_id : Nat
  pet_name : String
  activity_type : String
  ts : Int
  duration_minutes : Option Rat
  staff_id : Nat
  notes : String
deriving Repr, DecidableEq

/-- A transformed pet-activity record (row of the `pet_activities` table):
derived `date`, `hour`, `day_of_week` (modelled numerically, 0 = Monday),
positive validated duration, normalized activity type. -/
structure Activity where
  pet_id : Nat
  pet_name : String
  activity_type : String
  ts : Int
  date : Int
  hour : Int
  day_of_week : Int
  duration_minutes : Rat
  staff_id : Nat
  notes : String
deriving Repr, DecidableEq

/-- `DataTransformer.transform_pet_activities`: derive date/hour/day-of-week
from the timestamp, coerce the duration and keep only rows with
`duration_minutes > 0` (a NaN comparison is false, so coercion failures are
dropped too), and lowercase/strip the activity type. -/
def transform_pet_activities (activities : List RawActivity) : List Activity :=
  activities.filterMap fun a =>
    match a.duration_minutes with
    | none => none
    | some d =>
      if d > 0 then
        some { pet_id := a.pet_id, pet_name := a.pet_name,
               activity_type := a.activity_type.trim.toLower,
               ts := a.ts, date := dateOf a.ts, hour := hourOf a.ts,
               day_of_week := (dateOf a.ts + 3).emod 7,
               duration_minutes := d, staff_id := a.staff_id, notes := a.notes }
      else none

/-- `DataTransformer._categorize_temperature` (the `pd.isna` branch is
unreachable after `dropna`). -/
def catTemperature (temp : Rat) : String :=
  if temp < 65 then "cold" else if temp ≤ 78 then "comfortable" else "warm"

/-- `DataTransformer._categorize_humidity`. -/
def catHumidity (humidity : Rat) : String :=
  if humidity < 30 then "dry" else if humidity ≤ 60 then "comfortable" else "humid"

/-- `DataTransformer._categorize_noise`. -/
def catNoise (noise : Rat) : String :=
  if noise < 35 then "quiet" else if noise ≤ 45 then "normal" else "loud"

/-- A raw environment reading handed to `transform_environment_data`; the three
measurement fields hold `pd.to_numeric(..., errors='coerce')` results. -/
structure RawEnv where
  ts : Int
  kennel_section : String
  temperature_f : Option Rat
  humidity_percent : Option Rat
  noise_level_db : Option Rat
deriving Repr, DecidableEq

/-- A transformed environment reading (row of the `environment` table). -/
structure EnvReading where
  ts : Int
  kennel_section : String
  date : Int
  hour : Int
  temperature_f : Rat
  humidity_percent : Rat
  noise_level_db : Rat
  temp_comfort : String
  humidity_comfort : String
  noise_comfort : String
deriving Repr, DecidableEq

/-- `DataTransformer.transform_environment_data`: derive date/hour, coerce the
three measurements, `dropna` any row where one of them failed to parse, and
attach the transformer's comfort labels. -/
def transform_environment_data (env : List RawEnv) : List EnvReading :=
  env.filterMap fun e =>
    match e.temperature_f, e.humidity_percent, e.noise_level_db with
    | some t, some h, some n =>
      some { ts := e.ts, kennel_section := e.kennel_section,
             date := dateOf e.ts, hour := hourOf e.ts,
             temperature_f := t, humidity_percent := h, noise_level_db := n,
             temp_comfort := catTemperature t, humidity_comfort := catHumidity h,
             noise_comfort := catNoise n }
    | _, _, _ => none

/-- `DataTransformer._categorize_shift`: bucket a shift by its start hour. -/
def catShift (hour : Int) : String :=
  if 5 ≤ hour ∧ hour < 14 then "morning"
  else if 14 ≤ hour ∧ hour < 22 then "afternoon"
  else "night"

/-- A raw staff log row handed to `transform_staff_logs`; `tasks_completed`
holds the numeric-coercion result. -/
structure RawStaff where
  staff_id : Nat
  staff_name : String
  shift_start : Int
  shift_end : Int
  tasks_completed : Option Rat
deriving Repr, DecidableEq

/-- A transformed staff log row (row of the `staff_logs` table). -/
structure Staff where
  staff_id : Nat
  staff_name : String
  shift_start : Int
  shift_end : Int
  shift_duration_hours : Rat
  shift_type : String
  tasks_completed : Rat
  tasks_per_hour : Rat
deriving Repr, DecidableEq

/-- `DataTransformer.transform_staff_logs`: compute the shift duration in
hours (`total_seconds() / 3600`), the shift type, keep rows with
`tasks_completed >= 0` (NaN comparisons are false), and compute
`tasks_per_hour = tasks_completed / shift_duration_hours` with NO guard
against a zero duration. Rational division by zero is total in this model
(`t / 0 = 0`) whereas pandas produces `inf`/`NaN`; the claims only concern
the absence of the guard, i.e. that the row reaches the division. -/
def transform_staff_logs (staff : List RawStaff) : List Staff :=
  staff.filterMap fun s =>
    match s.tasks_completed with
    | none => none
    | some t =>
      if t ≥ 0 then
        some { staff_id := s.staff_id, staff_name := s.staff_name,
               shift_start := s.shift_start, shift_end := s.shift_end,
               shift_duration_hours := ((s.shift_end - s.shift_start : Int) : Rat) / 3600,
               shift_type := catShift (hourOf s.shift_start),
               tasks_completed := t,
               tasks_per_hour := t / (((s.shift_end - s.shift_start : Int) : Rat) / 3600) }
      else none

/-- A row of the daily summary table built by `create_daily_summary`.
The environment averages are `Option`s because the source explicitly stores
`None` when the date has no environment readings; the activity and staff
aggregates are always plain numbers (the source writes `0`, or sums/counts
an empty selection). -/
structure DailySummaryRow where
  date : Int
  total_activities : Nat
  total_activity_minutes : Rat
  unique_pets : Nat
  avg_temperature : Option Rat
  avg_humidity : Option Rat
  avg_noise : Option Rat
  staff_shifts : Nat
  total_tasks : Rat
deriving Repr, DecidableEq

/-- `DataTransformer.create_daily_summary`: one row per date in the sorted
union of the dates of the three transformed tables. -/
def create_daily_summary (pet : List Activity) (env : List EnvReading)
    (staff : List Staff) : List DailySummaryRow :=
  let dates : List Int :=
    ((pet.map (·.date) ++ env.map (·.date)
      ++ staff.map (fun s => dateOf s.shift_start)).dedup).insertionSort
      (fun a b => intLe a b = true)
  dates.map fun d =>
    let day_activities := pet.filter (·.date = d)
    let day_env := env.filter (·.date = d)
    let day_staff := staff.filter (fun s => dateOf s.shift_start = d)
    { date := d,
      total_activities := day_activities.length,
      total_activity_minutes := pySum (day_activities.map (·.duration_minutes)),
      unique_pets := ((day_activities.map (·.pet_id)).dedup).length,
      avg_temperature := pyMean (day_env.map (·.temperature_f)),
      avg_humidity := pyMean (day_env.map (·.humidity_percent)),
      avg_noise := pyMean (day_env.map (·.noise_level_db)),
      staff_shifts := day_staff.length,
      total_tasks := pySum (day_staff.map (·.tasks_completed)) }

/-! ## PetWellnessAnalyzer (`src/dashboard/analytics/pet_wellness.py`)

Each method filters records to `timestamp >= datetime.now() - timedelta(days)`.
The implicit `datetime.now()` instant is modelled as an explicit `now`
parameter; the cutoff instant is `now - days·86400`. Summary wrappers that
take no window parameter are modelled only where a claim consumes them. -/

/-- The window cutoff instant `now - timedelta(days=days)`. -/
def windowCutoff (now days : Int) : Int := now - days * 86400

/-- `PetWellnessAnalyzer._categorize_activity_level`. -/
def catActivityLevel (avg_minutes : Rat) : String :=
  if avg_minutes < PET_WELLNESS.min_activity_minutes_per_day then "low"
  else if avg_minutes > PET_WELLNESS.max_activity_minutes_per_day then "high"
  else "optimal"

/-- `PetWellnessAnalyzer._categorize_feeding_frequency`. -/
def catFeedingFrequency (avg_feedings : Rat) : String :=
  if avg_feedings < PET_WELLNESS.min_feeding_times_per_day then "infrequent"
  else if avg_feedings > PET_WELLNESS.max_feeding_times_per_day then "excessive"
  else "normal"

/-- A row of the intermediate `daily_activity` table: per (pet, date) summed
duration and activity count. -/
structure DailyActivityRow where
  pet_id : Nat
  pet_name : String
  date : Int
  duration_minutes : Rat
  activity_count : Nat
deriving Repr, DecidableEq

/-- A row of the table returned by `get_avg_activity_time_per_pet`. -/
structure PetAvgRow where
  pet_id : Nat
  pet_name : String
  avg_daily_minutes : Rat
  avg_daily_activities : Rat
  activity_status : String
deriving Repr, DecidableEq

/-- One row of the intermediate `daily_activity` groupby of
`get_avg_activity_time_per_pet`: the `(pet, date)` group `k` of `recent` with
its summed duration and activity count. -/
def dailyRowOf (recent : List Activity) (k : Nat × String × Int) : DailyActivityRow :=
  let g := recent.filter fun r => (r.pet_id, r.pet_name, r.date) = k
  { pet_id := k.1, pet_name := k.2.1, date := k.2.2,
    duration_minutes := pySum (g.map (·.duration_minutes)),
    activity_count := g.length }

/-- `PetWellnessAnalyzer.get_avg_activity_time_per_pet`: window the records,
sum duration and count activities per (pet, date), average those per-day rows
per pet (rounded to 2 decimals), attach the activity status of the rounded
average, and sort descending by `avg_daily_minutes`. On an empty window the
groupbys are empty and an empty table is returned (no error mapping). -/
def get_avg_activity_time_per_pet (df : List Activity) (days : Option Int)
    (now : Int) : List PetAvgRow :=
  let d := resolveDays days ANALYSIS_WINDOWS.medium_term
  let recent := df.filter fun r => windowCutoff now d ≤ r.ts
  let daily : List DailyActivityRow :=
    (groupKeys idNameDateLe (fun r => (r.pet_id, r.pet_name, r.date)) recent).map
      (dailyRowOf recent)
  let pet_averages : List PetAvgRow :=
    (groupKeys idNameLe (fun r => (r.pet_id, r.pet_name)) daily).map
      fun k =>
        let g := daily.filter fun r => (r.pet_id, r.pet_name) = k
        let avg := pyRound 2 (pySum (g.map (·.duration_minutes)) / g.length)
        { pet_id := k.1, pet_name := k.2,
          avg_daily_minutes := avg,
          avg_daily_activities := pyRound 2 (pySum (g.map fun r => (r.activity_count : Rat)) / g.length),
          activity_status := catActivityLevel avg }
  pet_averages.insertionSort fun a b => decide (b.avg_daily_minutes ≤ a.avg_daily_minutes) = true

/-- Sample variance of a column (`ddof = 1`), `none` for fewer than 2 values
(pandas `std` is NaN there). The source's `std` aggregate is the square root
of this, which is irrational in general; no claim consumes its value, so the
exact variance is carried instead of the float standard deviation. -/
def sampleVar (xs : List Rat) : Option Rat :=
  if xs.length < 2 then none
  else
    let m := pySum xs / xs.length
    some (pySum (xs.map fun x => (x - m) ^ 2) / (xs.length - 1 : Nat))

/-- A row of the intermediate `daily_feeding` table: feedings per (pet, date). -/
structure FeedingDailyRow where
  pet_id : Nat
  pet_name : String
  date : Int
  feedings_per_day : Nat
deriving Repr, DecidableEq

/-- A row of the per-pet table of `get_feeding_frequency_analysis`.
`feeding_consistency` carries the sample variance of the daily counts (see
`sampleVar`); the source stores `round(std, 2)`. -/
structure FeedingPetRow where
  pet_id : Nat
  pet_name : String
  avg_feedings_per_day : Rat
  feeding_consistency : Option Rat
  min_daily : Nat
  max_daily : Nat
  feeding_status : String
deriving Repr, DecidableEq

/-- The mapping returned by `get_feeding_frequency_analysis`. -/
structure FeedingStats where
  total_pets_analyzed : Nat
  avg_feedings_across_kennel : Option Rat
  pets_with_irregular_feeding : Nat
  detailed_per_pet : List FeedingPetRow
deriving Repr, DecidableEq

/-- `PetWellnessAnalyzer.get_feeding_frequency_analysis`: restrict to in-window
feeding activities, count feedings per (pet, date), aggregate the daily counts
per pet, and label the feeding status. No error mapping exists on this path:
an empty selection yields empty tables and a NaN (`none`) kennel average. -/
def get_feeding_frequency_analysis (df : List Activity) (days : Option Int)
    (now : Int) : FeedingStats :=
  let d := resolveDays days ANALYSIS_WINDOWS.medium_term
  let feeding := df.filter fun r =>
    r.activity_type = "feeding" ∧ windowCutoff now d ≤ r.ts
  let daily : List FeedingDailyRow :=
    (groupKeys idNameDateLe (fun r => (r.pet_id, r.pet_name, r.date)) feeding).map
      fun k =>
        { pet_id := k.1, pet_name := k.2.1, date := k.2.2,
          feedings_per_day :=
            (feeding.filter fun r => (r.pet_id, r.pet_name, r.date) = k).length }
  let avg_feedings : List FeedingPetRow :=
    (groupKeys idNameLe (fun r => (r.pet_id, r.pet_name)) daily).map
      fun k =>
        let g := daily.filter fun r => (r.pet_id, r.pet_name) = k
        let counts := g.map fun r => (r.feedings_per_day : Rat)
        let avg := pyRound 2 (pySum counts / g.length)
        { pet_id := k.1, pet_name := k.2,
          avg_feedings_per_day := avg,
          feeding_consistency := sampleVar counts,
          min_daily := (g.map (·.feedings_per_day)).min?.getD 0,
          max_daily := (g.map (·.feedings_per_day)).max?.getD 0,
          feeding_status := catFeedingFrequency avg }
  { total_pets_analyzed := avg_feedings.length,
    avg_feedings_across_kennel := pyMean (avg_feedings.map (·.avg_feedings_per_day)),
    pets_with_irregular_feeding :=
      (avg_feedings.filter fun r => r.feeding_status ≠ "normal").length,
    detailed_per_pet := avg_feedings }

/-- Heuristic text match of `notes.str.contains('weight|Weight', case=False)`:
both regex branches match the substring `"weight"` case-insensitively. -/
def notesMentionWeight (notes : String) : Bool :=
  (notes.toLower.splitOn "weight").length ≥ 2

/-- A row of the per-pet table of `get_weight_trend_analysis`. -/
structure WeightPetRow where
  pet_id : Nat
  pet_name : String
  total_weight_checks : Nat
  first_check : Int
  latest_check : Int
  latest_notes : String
  days_between_checks : Int
deriving Repr, DecidableEq

/-- The mapping returned by `get_weight_trend_analysis`. -/
structure WeightStats where
  pets_with_weight_monitoring : Nat
  total_weight_checks : Nat
  avg_checks_per_pet : Rat
  detailed_per_pet : List WeightPetRow
  recent_weight_activities : List Activity
deriving Repr, DecidableEq

/-- `PetWellnessAnalyzer.get_weight_trend_analysis`: in-window medical
activities whose notes mention "weight", grouped per pet with first/latest
check and the day span between them. (The `notes: 'first'` aggregate keeps
the first note in row order.) -/
def get_weight_trend_analysis (df : List Activity) (days : Option Int)
    (now : Int) : WeightStats :=
  let d := resolveDays days ANALYSIS_WINDOWS.medium_term
  let medical := df.filter fun r =>
    r.activity_type = "medical" ∧ windowCutoff now d ≤ r.ts
  let weight_mentions := medical.filter fun r => notesMentionWeight r.notes
  let per_pet := (groupKeys idNameLe (fun r => (r.pet_id, r.pet_name)) weight_mentions).map
    fun k =>
      let g := weight_mentions.filter fun r => (r.pet_id, r.pet_name) = k
      let first := colMin (g.map (·.ts))
      let latest := colMax (g.map (·.ts))
      { pet_id := k.1, pet_name := k.2,
        total_weight_checks := g.length,
        first_check := first, latest_check := latest,
        latest_notes := ((g.head?).map (·.notes)).getD "",
        days_between_checks := (latest - first).fdiv 86400 : WeightPetRow }
  { pets_with_weight_monitoring := per_pet.length,
    total_weight_checks := weight_mentions.length,
    avg_checks_per_pet :=
      if per_pet.isEmpty then 0
      else pySum (per_pet.map fun r => (r.total_weight_checks : Rat)) / per_pet.length,
    detailed_per_pet := per_pet,
    recent_weight_activities :=
      (weight_mentions.insertionSort fun a b => decide (b.ts ≤ a.ts) = true).take 10 }

/-! ## EnvironmentalAnalyzer (`src/dashboard/analytics/environmental.py`) -/

/-- `EnvironmentalAnalyzer._rate_temperature_comfort`. -/
def rateTemperatureComfort (temp : Rat) : String :=
  let config := ENVIRONMENT.temperature
  if config.optimal_min ≤ temp ∧ temp ≤ config.optimal_max then "optimal"
  else if config.alert_min ≤ temp ∧ temp ≤ config.alert_max then "acceptable"
  else "poor"

/-- `EnvironmentalAnalyzer._rate_humidity_comfort`. -/
def rateHumidityComfort (humidity : Rat) : String :=
  let config := ENVIRONMENT.humidity
  if config.optimal_min ≤ humidity ∧ humidity ≤ config.optimal_max then "optimal"
  else if config.alert_min ≤ humidity ∧ humidity ≤ config.alert_max then "acceptable"
  else "poor"

/-- `EnvironmentalAnalyzer._categorize_noise_level` (four tiers). -/
def catNoiseLevel (noise : Rat) : String :=
  let config := ENVIRONMENT.noise
  if noise ≤ config.normal_max then "normal"
  else if noise ≤ config.alert_threshold then "elevated"
  else if noise ≤ config.critical_threshold then "high"
  else "critical"

/-- `EnvironmentalAnalyzer._categorize_temperature_range` (five fixed buckets). -/
def catTemperatureRange (temp : Rat) : String :=
  if temp < 65 then "cold"
  else if temp < 72 then "cool"
  else if temp ≤ 78 then "optimal"
  else if temp ≤ 82 then "warm"
  else "hot"

/-- A row of the per-section statistics table of
`get_temperature_humidity_averages` (every aggregate is `round(2)`ed; the
`std` aggregates carry the sample variance, see `sampleVar`). -/
structure SectionStats where
  kennel_section : String
  mean_temperature_f : Rat
  std_temperature_f : Option Rat
  min_temperature_f : Rat
  max_temperature_f : Rat
  mean_humidity_percent : Rat
  std_humidity_percent : Option Rat
  min_humidity_percent : Rat
  max_humidity_percent : Rat
  mean_noise_level_db : Rat
  std_noise_level_db : Option Rat
  min_noise_level_db : Rat
  max_noise_level_db : Rat
  temp_comfort_rating : String
  humidity_comfort_rating : String
deriving Repr, DecidableEq

/-- The `overall` entry of `get_temperature_humidity_averages`: unrounded
column means (`none` = NaN mean of an empty window) and spreads. -/
structure OverallStats where
  avg_temperature : Option Rat
  avg_humidity : Option Rat
  avg_noise : Option Rat
  temp_std : Option Rat
  humidity_std : Option Rat
  noise_std : Option Rat
  total_readings : Nat
  days_analyzed : Int
deriving Repr, DecidableEq

/-- Counts per stored comfort label (`value_counts().to_dict()`; zero-count
labels are absent keys in the source dict, modelled as zero counts). -/
structure ComfortSummary where
  temp_cold : Nat
  temp_comfortable : Nat
  temp_warm : Nat
  humidity_dry : Nat
  humidity_comfortable : Nat
  humidity_humid : Nat
  noise_quiet : Nat
  noise_normal : Nat
  noise_loud : Nat
deriving Repr, DecidableEq

/-- `EnvironmentalAnalyzer._get_comfort_summary`: the analyzer's input is the
transformed environment table, whose `temp_comfort` / `humidity_comfort` /
`noise_comfort` columns are present, so the source takes the branch that
counts the stored labels. -/
def getComfortSummary (df : List EnvReading) : ComfortSummary :=
  { temp_cold := (df.filter fun r => r.temp_comfort = "cold").length,
    temp_comfortable := (df.filter fun r => r.temp_comfort = "comfortable").length,
    temp_warm := (df.filter fun r => r.temp_comfort = "warm").length,
    humidity_dry := (df.filter fun r => r.humidity_comfort = "dry").length,
    humidity_comfortable := (df.filter fun r => r.humidity_comfort = "comfortable").length,
    humidity_humid := (df.filter fun r => r.humidity_comfort = "humid").length,
    noise_quiet := (df.filter fun r => r.noise_comfort = "quiet").length,
    noise_normal := (df.filter fun r => r.noise_comfort = "normal").length,
    noise_loud := (df.filter fun r => r.noise_comfort = "loud").length }

/-- The mapping returned by `get_temperature_humidity_averages`. -/
structure TempHumidResult where
  overall : OverallStats
  by_section : List SectionStats
  comfort_summary : ComfortSummary
deriving Repr, DecidableEq

/-- `EnvironmentalAnalyzer.get_temperature_humidity_averages`: windowed
overall statistics, optional per-section breakdown with comfort ratings of
the rounded section means. On an empty window no error mapping is produced:
the overall means are NaN (`none`) and the tables are empty. -/
def get_temperature_humidity_averages (df : List EnvReading) (days : Option Int)
    (by_section : Bool) (now : Int) : TempHumidResult :=
  let d := resolveDays days ANALYSIS_WINDOWS.medium_term
  let recent := df.filter fun r => windowCutoff now d ≤ r.ts
  let section_stats : List SectionStats :=
    if by_section then
      (groupKeys strLe (fun r => r.kennel_section) recent).map fun k =>
        let g := recent.filter fun r => r.kennel_section = k
        let temps := g.map (·.temperature_f)
        let humids := g.map (·.humidity_percent)
        let noises := g.map (·.noise_level_db)
        let mean_t := pyRound 2 (pySum temps / g.length)
        let mean_h := pyRound 2 (pySum humids / g.length)
        { kennel_section := k,
          mean_temperature_f := mean_t,
          std_temperature_f := sampleVar temps,
          min_temperature_f := pyRound 2 ((temps.min?).getD 0),
          max_temperature_f := pyRound 2 ((temps.max?).getD 0),
          mean_humidity_percent := mean_h,
          std_humidity_percent := sampleVar humids,
          min_humidity_percent := pyRound 2 ((humids.min?).getD 0),
          max_humidity_percent := pyRound 2 ((humids.max?).getD 0),
          mean_noise_level_db := pyRound 2 (pySum noises / g.length),
          std_noise_level_db := sampleVar noises,
          min_noise_level_db := pyRound 2 ((noises.min?).getD 0),
          max_noise_level_db := pyRound 2 ((noises.max?).getD 0),
          temp_comfort_rating := rateTemperatureComfort mean_t,
          humidity_comfort_rating := rateHumidityComfort mean_h }
    else []
  { overall :=
      { avg_temperature := pyMean (recent.map (·.temperature_f)),
        avg_humidity := pyMean (recent.map (·.humidity_percent)),
        avg_noise := pyMean (recent.map (·.noise_level_db)),
        temp_std := sampleVar (recent.map (·.temperature_f)),
        humidity_std := sampleVar (recent.map (·.humidity_percent)),
        noise_std := sampleVar (recent.map (·.noise_level_db)),
        total_readings := recent.length,
        days_analyzed := d },
    by_section := section_stats,
    comfort_summary := getComfortSummary recent }

/-- Key order for `(date, hour)` group keys. -/
def dateHourLe (a b : Int × Int) : Bool :=
  a.1 < b.1 || (a.1 = b.1 && a.2 ≤ b.2)

/-- Counts per noise category of the windowed readings
(`value_counts().to_dict()` of the `noise_category` column computed with the
analyzer's own classifier). -/
structure NoiseDistribution where
  normal : Nat
  elevated : Nat
  high : Nat
  critical : Nat
deriving Repr, DecidableEq

/-- The mapping returned by `get_noise_level_alerts`. -/
structure NoiseResult where
  total_alerts : Nat
  critical_alerts : Nat
  alerts_per_day : Rat
  hourly_alerts : List (Int × Int × Nat)
  daily_breakdown : List (Int × NoiseDistribution)
  peak_noise_hours : List (Int × Rat)
  noise_distribution : NoiseDistribution
  recent_alerts : List EnvReading
deriving Repr, DecidableEq

/-- `EnvironmentalAnalyzer.get_noise_level_alerts`: the only analysis method
whose default window is `short_term` (7 days); counts readings above the
alert and critical thresholds, divides the alert count by the window length,
and reports per-hour averages above the alert threshold ranked descending. -/
def get_noise_level_alerts (df : List EnvReading) (days : Option Int)
    (now : Int) : NoiseResult :=
  let d := resolveDays days ANALYSIS_WINDOWS.short_term
  let recent := df.filter fun r => windowCutoff now d ≤ r.ts
  let alert_threshold := ENVIRONMENT.noise.alert_threshold
  let critical_threshold := ENVIRONMENT.noise.critical_threshold
  let alert_rows := recent.filter fun r => r.noise_level_db > alert_threshold
  let hourly_alerts : List (Int × Int × Nat) :=
    (groupKeys dateHourLe (fun r => (r.date, r.hour)) alert_rows).map fun k =>
      (k.1, k.2, (alert_rows.filter fun r => (r.date, r.hour) = k).length)
  let distOf : List EnvReading → NoiseDistribution := fun rows =>
    { normal := (rows.filter fun r => catNoiseLevel r.noise_level_db = "normal").length,
      elevated := (rows.filter fun r => catNoiseLevel r.noise_level_db = "elevated").length,
      high := (rows.filter fun r => catNoiseLevel r.noise_level_db = "high").length,
      critical := (rows.filter fun r => catNoiseLevel r.noise_level_db = "critical").length }
  let daily_breakdown : List (Int × NoiseDistribution) :=
    (groupKeys intLe (fun r => r.date) recent).map fun day =>
      (day, distOf (recent.filter fun r => r.date = day))
  let hourly_avg : List (Int × Rat) :=
    (groupKeys intLe (fun r => r.hour) recent).map fun h =>
      let g := recent.filter fun r => r.hour = h
      (h, pyRound 2 (pySum (g.map (·.noise_level_db)) / g.length))
  let peak : List (Int × Rat) :=
    (hourly_avg.filter fun p => p.2 > alert_threshold).insertionSort
      fun a b => decide (b.2 ≤ a.2) = true
  { total_alerts := alert_rows.length,
    critical_alerts := (recent.filter fun r => r.noise_level_db > critical_threshold).length,
    alerts_per_day := (alert_rows.length : Rat) / (d : Rat),
    hourly_alerts := hourly_alerts,
    daily_breakdown := daily_breakdown,
    peak_noise_hours := peak,
    noise_distribution := distOf recent,
    recent_alerts := alert_rows.drop (alert_rows.length - 10) }

/-- A row of the hourly `(date, hour)` inner join computed inside
`get_temperature_activity_correlation`. -/
structure MergedRow where
  date : Int
  hour : Int
  temperature_f : Rat
  humidity_percent : Rat
  noise_level_db : Rat
  total_activity_minutes : Rat
  activity_count : Nat
deriving Repr, DecidableEq

/-- The hourly environment aggregation of
`get_temperature_activity_correlation` (windowed, grouped by `(date, hour)`,
column means). -/
def envHourly (df : List EnvReading) (cutoff : Int) :
    List (Int × Int × Rat × Rat × Rat) :=
  let recent := df.filter fun r => cutoff ≤ r.ts
  (groupKeys dateHourLe (fun r => (r.date, r.hour)) recent).map fun k =>
    let g := recent.filter fun r => (r.date, r.hour) = k
    (k.1, k.2,
     pySum (g.map (·.temperature_f)) / g.length,
     pySum (g.map (·.humidity_percent)) / g.length,
     pySum (g.map (·.noise_level_db)) / g.length)

/-- The hourly activity aggregation of `get_temperature_activity_correlation`
(windowed, grouped by `(date, hour)`, summed duration and row count). -/
def activityHourly (acts : List Activity) (cutoff : Int) :
    List (Int × Int × Rat × Nat) :=
  let recent := acts.filter fun r => cutoff ≤ r.ts
  (groupKeys dateHourLe (fun r => (r.date, r.hour)) recent).map fun k =>
    let g := recent.filter fun r => (r.date, r.hour) = k
    (k.1, k.2, pySum (g.map (·.duration_minutes)), g.length)

/-- The `(date, hour)` inner join of the two hourly tables (`pd.merge(...,
how='inner')`): both sides have unique keys, so the result keeps each left
row whose key also appears on the right, in left order. -/
def mergedHourly (df : List EnvReading) (acts : List Activity) (cutoff : Int) :
    List MergedRow :=
  (envHourly df cutoff).filterMap fun e =>
    match (activityHourly acts cutoff).find? (fun a => a.1 = e.1 ∧ a.2.1 = e.2.1) with
    | some a =>
      some { date := e.1, hour := e.2.1, temperature_f := e.2.2.1,
             humidity_percent := e.2.2.2.1, noise_level_db := e.2.2.2.2,
             total_activity_minutes := a.2.2.1, activity_count := a.2.2.2 }
    | none => none

/-- An exact representation of a defined Pearson correlation coefficient:
the coefficient equals `num / √denSq` with `denSq > 0`. The float value
(and its `round(..., 3)` display form) is irrational in general; every use
in the source  — strength classification by absolute value — is decidable
from this exact form. -/
structure PearsonCorr where
  num : Rat
  denSq : Rat
deriving Repr, DecidableEq

/-- `Series.corr`: the Pearson coefficient of two equal-length columns,
`none` (NaN) when there are fewer than 2 points or either column has zero
variance. `num = n·Σxy − Σx·Σy` and `denSq = (n·Σx² − (Σx)²)·(n·Σy² − (Σy)²)`. -/
def pearson (xs ys : List Rat) : Option PearsonCorr :=
  let n : Rat := xs.length
  let sx := pySum xs
  let sy := pySum ys
  let sxy := pySum ((xs.zip ys).map fun p => p.1 * p.2)
  let dx := n * pySum (xs.map fun x => x ^ 2) - sx ^ 2
  let dy := n * pySum (ys.map fun y => y ^ 2) - sy ^ 2
  if xs.length < 2 ∨ dx = 0 ∨ dy = 0 then none
  else some { num := n * sxy - sx * sy, denSq := dx * dy }

/-- Whether `|num / √denSq| ≥ t` for a nonnegative `t`, decided exactly:
squaring both sides gives `num² ≥ t²·denSq`. -/
def corrAbsGe (c : PearsonCorr) (t : Rat) : Bool :=
  decide (c.num ^ 2 ≥ t ^ 2 * c.denSq)

/-- `EnvironmentalAnalyzer._interpret_correlation`: classify the strength of
a correlation by absolute value; every comparison against NaN is false, so an
undefined coefficient falls through to `negligible`. -/
def interpretCorrelation (c : Option PearsonCorr) : String :=
  match c with
  | none => "negligible"
  | some c =>
    if corrAbsGe c (7/10) then "strong"
    else if corrAbsGe c (2/5) then "moderate"
    else if corrAbsGe c (1/5) then "weak"
    else "negligible"

/-- `EnvironmentalAnalyzer._find_optimal_temperature_range`: the temperature
bucket with the highest mean activity (`idxmax`: the first maximizer in group
key order), `'unknown'` for an empty table. -/
def findOptimalTemperatureRange (merged : List MergedRow) : String :=
  let tbl : List (String × Rat) :=
    (groupKeys strLe (fun r => catTemperatureRange r.temperature_f) merged).map fun k =>
      let g := merged.filter fun r => catTemperatureRange r.temperature_f = k
      (k, pySum (g.map (·.total_activity_minutes)) / g.length)
  match tbl with
  | [] => "unknown"
  | t :: ts => (ts.foldl (fun best x => if x.2 > best.2 then x else best) t).1

/-- The mapping returned by `get_temperature_activity_correlation` when the
join is non-empty. The three correlation entries carry the exact coefficient
representation (the source stores `round(corr, 3)` floats). -/
structure CorrResult where
  temperature_activity_correlation : Option PearsonCorr
  temperature_count_correlation : Option PearsonCorr
  humidity_activity_correlation : Option PearsonCorr
  activity_by_temperature_range : List (String × Rat × Rat)
  optimal_temperature_range : String
  data_points : Nat
  correlation_strength : String
deriving Repr, DecidableEq

/-- `EnvironmentalAnalyzer.get_temperature_activity_correlation`: aggregate
both sources to `(date, hour)` granularity, inner-join them, and return the
error mapping exactly when the join is empty; otherwise compute the three
Pearson correlations (NaN — `none` — whenever fewer than 2 join rows or a
constant column), the activity-by-temperature-bucket table, and the strength
label of the temperature/activity coefficient. -/
def get_temperature_activity_correlation (df : List EnvReading)
    (acts : List Activity) (days : Option Int) (now : Int) :
    Except String CorrResult :=
  let d := resolveDays days ANALYSIS_WINDOWS.medium_term
  let merged := mergedHourly df acts (windowCutoff now d)
  if merged.isEmpty then
    .error "No matching data found for correlation analysis"
  else
    let temps := merged.map (·.temperature_f)
    let minutes := merged.map (·.total_activity_minutes)
    let counts := merged.map fun r => (r.activity_count : Rat)
    let humids := merged.map (·.humidity_percent)
    let temp_activity_corr := pearson temps minutes
    let activity_by_temp : List (String × Rat × Rat) :=
      (groupKeys strLe (fun r => catTemperatureRange r.temperature_f) merged).map fun k =>
        let g := merged.filter fun r => catTemperatureRange r.temperature_f = k
        (k, pyRound 2 (pySum (g.map (·.total_activity_minutes)) / g.length),
         pyRound 2 (pySum (g.map fun r => (r.activity_count : Rat)) / g.length))
    .ok { temperature_activity_correlation := temp_activity_corr,
          temperature_count_correlation := pearson temps counts,
          humidity_activity_correlation := pearson humids minutes,
          activity_by_temperature_range := activity_by_temp,
          optimal_temperature_range := findOptimalTemperatureRange merged,
          data_points := merged.length,
          correlation_strength := interpretCorrelation temp_activity_corr }

/-- Whether an optional value (a possibly-NaN mean) lies in `[lo, hi]`; a NaN
comparison is false in Python. -/
def inBandOpt (lo hi : Rat) (v : Option Rat) : Bool :=
  match v with
  | none => false
  | some x => decide (lo ≤ x ∧ x ≤ hi)

/-- `EnvironmentalAnalyzer._calculate_comfort_score`: three binary sub-scores
(100 if the metric's overall mean is in its optimal band, else 50), averaged
and rounded to one decimal. -/
def calculateComfortScore (overall_stats : OverallStats) : Rat :=
  let temp_score : Rat :=
    if inBandOpt ENVIRONMENT.temperature.optimal_min ENVIRONMENT.temperature.optimal_max
        overall_stats.avg_temperature then 100 else 50
  let humidity_score : Rat :=
    if inBandOpt ENVIRONMENT.humidity.optimal_min ENVIRONMENT.humidity.optimal_max
        overall_stats.avg_humidity then 100 else 50
  let noise_score : Rat :=
    if (match overall_stats.avg_noise with
        | none => false
        | some x => decide (x ≤ ENVIRONMENT.noise.normal_max)) then 100 else 50
  pyRound 1 ((temp_score + humidity_score + noise_score) / 3)

/-! ## OperationsAnalyzer (`src/dashboard/analytics/operations.py`) -/

/-- A row of the per-pet grooming table of `get_grooming_cleaning_frequency`. -/
structure GroomPetRow where
  pet_id : Nat
  pet_name : String
  total_grooming_sessions : Nat
  first_groom : Int
  latest_groom : Int
  avg_duration : Rat
  days_since_last_groom : Int
  grooming_frequency : Rat
deriving Repr, DecidableEq

/-- A row of the `daily_patterns` table: sessions, total/mean minutes and
distinct staff involved per date. -/
structure GroomDailyRow where
  date : Int
  grooming_sessions : Nat
  total_minutes : Rat
  avg_duration : Rat
  staff_involved : Nat
deriving Repr, DecidableEq

/-- The mapping returned by `get_grooming_cleaning_frequency` when in-window
grooming data exists. -/
structure GroomResult where
  total_grooming_sessions : Nat
  pets_groomed : Nat
  avg_sessions_per_pet : Rat
  avg_grooming_duration : Rat
  pets_needing_grooming : Nat
  pets_overdue_grooming : Nat
  grooming_schedule_compliance : Rat
  detailed_per_pet : List GroomPetRow
  daily_patterns : List GroomDailyRow
  pets_needing_attention : List (Nat × String × Int)
deriving Repr, DecidableEq

/-- `OperationsAnalyzer.get_grooming_cleaning_frequency`: restrict to
in-window grooming activities and return the error mapping when none exist;
otherwise aggregate per pet (session count, first/latest groom, mean
duration), compute days since the last groom from the current instant and the
mean inter-session interval, flag pets past the target and alert thresholds,
and report the compliance percentage. -/
def get_grooming_cleaning_frequency (acts : List Activity) (days : Option Int)
    (now : Int) : Except String GroomResult :=
  let d := resolveDays days ANALYSIS_WINDOWS.medium_term
  let grooming := acts.filter fun r =>
    r.activity_type = "grooming" ∧ windowCutoff now d ≤ r.ts
  if grooming.isEmpty then
    .error "No grooming data found for the specified period"
  else
    let pet_grooming : List GroomPetRow :=
      (groupKeys idNameLe (fun r => (r.pet_id, r.pet_name)) grooming).map fun k =>
        let g := grooming.filter fun r => (r.pet_id, r.pet_name) = k
        let first := colMin (g.map (·.ts))
        let latest := colMax (g.map (·.ts))
        let n := g.length
        { pet_id := k.1, pet_name := k.2,
          total_grooming_sessions := n,
          first_groom := first, latest_groom := latest,
          avg_duration := pySum (g.map (·.duration_minutes)) / n,
          days_since_last_groom := (now - latest).fdiv 86400,
          grooming_frequency :=
            if n > 1 then ((latest - first).fdiv 86400 : Rat) / (max 1 (n - 1) : Nat)
            else 0 }
    let target_days := OPERATIONS.grooming_frequency.target_days_between
    let alert_days := OPERATIONS.grooming_frequency.alert_days_overdue
    let needing := pet_grooming.filter fun r => r.days_since_last_groom > target_days
    let overdue := pet_grooming.filter fun r => r.days_since_last_groom > alert_days
    let daily : List GroomDailyRow :=
      (groupKeys intLe (fun r => r.date) grooming).map fun day =>
        let g := grooming.filter fun r => r.date = day
        { date := day, grooming_sessions := g.length,
          total_minutes := pySum (g.map (·.duration_minutes)),
          avg_duration := pySum (g.map (·.duration_minutes)) / g.length,
          staff_involved := ((g.map (·.staff_id)).dedup).length }
    .ok { total_grooming_sessions := grooming.length,
          pets_groomed := pet_grooming.length,
          avg_sessions_per_pet :=
            pySum (pet_grooming.map fun r => (r.total_grooming_sessions : Rat))
              / pet_grooming.length,
          avg_grooming_duration := pySum (grooming.map (·.duration_minutes)) / grooming.length,
          pets_needing_grooming := needing.length,
          pets_overdue_grooming := overdue.length,
          grooming_schedule_compliance :=
            if pet_grooming.length > 0 then
              (1 - (overdue.length : Rat) / (pet_grooming.length : Rat)) * 100
            else 0,
          detailed_per_pet := pet_grooming,
          daily_patterns := daily,
          pets_needing_attention :=
            overdue.map fun r => (r.pet_id, r.pet_name, r.days_since_last_groom) }

/-- `OperationsAnalyzer._rate_staff_performance`. -/
def rateStaffPerformance (tasks_per_hour : Rat) : String :=
  let config := OPERATIONS.staff_performance
  if tasks_per_hour ≥ config.target_tasks_per_hour then "excellent"
  else if tasks_per_hour ≥ config.min_tasks_per_hour then "satisfactory"
  else "below_target"

/-- A row of the per-staff performance table (aggregates are `round(2)`ed). -/
structure StaffPerfRow where
  staff_id : Nat
  staff_name : String
  total_tasks : Rat
  avg_tasks_per_shift : Rat
  total_hours : Rat
  avg_hours_per_shift : Rat
  avg_tasks_per_hour : Rat
  total_shifts : Nat
  performance_rating : String
deriving Repr, DecidableEq

/-- `performance_distribution`: `value_counts().to_dict()` of the rating
column (zero-count ratings are absent keys in the source dict, modelled as
zero counts — the consumers read it with `.get(..., 0)`). -/
structure RatingCounts where
  excellent : Nat
  satisfactory : Nat
  below_target : Nat
deriving Repr, DecidableEq

/-- A row of `detailed_staff_metrics`: the performance row merged (left join
on `staff_id`, missing → 0) with the staff member's windowed activity
participation. The dict-valued `activity_breakdown` column is not modelled;
no consumer reads it. -/
structure CombinedStaffRow where
  perf : StaffPerfRow
  total_activities : Nat
  total_activity_minutes : Rat
deriving Repr, DecidableEq

/-- The mapping returned by `get_staff_performance_analysis` when in-window
staff data exists. -/
structure StaffResult where
  total_staff_analyzed : Nat
  avg_tasks_per_hour_kennel : Rat
  top_performers : List StaffPerfRow
  staff_needing_support : List StaffPerfRow
  shift_type_performance : List (String × Rat)
  detailed_staff_metrics : List CombinedStaffRow
  performance_distribution : RatingCounts
deriving Repr, DecidableEq

/-- `OperationsAnalyzer.get_staff_performance_analysis`: restrict to shifts
starting in the window and return the error mapping when none exist;
otherwise aggregate per staff member, rate each against the configured task
rates, merge in activity participation, and report top-5 performers, the
below-target list and the rating distribution. -/
def get_staff_performance_analysis (staff : List Staff) (acts : List Activity)
    (days : Option Int) (now : Int) : Except String StaffResult :=
  let d := resolveDays days ANALYSIS_WINDOWS.medium_term
  let recent := staff.filter fun s => windowCutoff now d ≤ s.shift_start
  if recent.isEmpty then
    .error "No staff data found for the specified period"
  else
    let staff_performance : List StaffPerfRow :=
      (groupKeys idNameLe (fun s => (s.staff_id, s.staff_name)) recent).map fun k =>
        let g := recent.filter fun s => (s.staff_id, s.staff_name) = k
        let tph := pyRound 2 (pySum (g.map (·.tasks_per_hour)) / g.length)
        { staff_id := k.1, staff_name := k.2,
          total_tasks := pyRound 2 (pySum (g.map (·.tasks_completed))),
          avg_tasks_per_shift := pyRound 2 (pySum (g.map (·.tasks_completed)) / g.length),
          total_hours := pyRound 2 (pySum (g.map (·.shift_duration_hours))),
          avg_hours_per_shift := pyRound 2 (pySum (g.map (·.shift_duration_hours)) / g.length),
          avg_tasks_per_hour := tph,
          total_shifts := g.length,
          performance_rating := rateStaffPerformance tph }
    let shift_rows : List (Nat × String × Rat) :=
      (groupKeys idNameLe (fun s => (s.staff_id, s.shift_type)) recent).map fun k =>
        let g := recent.filter fun s => (s.staff_id, s.shift_type) = k
        (k.1, k.2, pySum (g.map (·.tasks_per_hour)) / g.length)
    let shift_type_performance : List (String × Rat) :=
      (groupKeys strLe (fun r : Nat × String × Rat => r.2.1) shift_rows).map fun t =>
        let g := shift_rows.filter fun r => r.2.1 = t
        (t, pySum (g.map (·.2.2)) / g.length)
    let recent_acts := acts.filter fun r => windowCutoff now d ≤ r.ts
    let combined : List CombinedStaffRow :=
      staff_performance.map fun p =>
        let mine := recent_acts.filter fun r => r.staff_id = p.staff_id
        { perf := p, total_activities := mine.length,
          total_activity_minutes := pySum (mine.map (·.duration_minutes)) }
    .ok { total_staff_analyzed := staff_performance.length,
          avg_tasks_per_hour_kennel :=
            pySum (staff_performance.map (·.avg_tasks_per_hour)) / staff_performance.length,
          top_performers :=
            (staff_performance.insertionSort fun a b =>
              decide (b.avg_tasks_per_hour ≤ a.avg_tasks_per_hour) = true).take 5,
          staff_needing_support :=
            staff_performance.filter fun r => r.performance_rating = "below_target",
          shift_type_performance := shift_type_performance,
          detailed_staff_metrics := combined,
          performance_distribution :=
            { excellent :=
                (staff_performance.filter fun r => r.performance_rating = "excellent").length,
              satisfactory :=
                (staff_performance.filter fun r => r.performance_rating = "satisfactory").length,
              below_target :=
                (staff_performance.filter fun r => r.performance_rating = "below_target").length } }

/-- The fixed whitelist of normal feeding hours in `get_alert_trends_analysis`. -/
def normal_feeding_hours : List Int := [7, 8, 12, 13, 17, 18]

/-- The 3-point trend heuristic of `get_alert_trends_analysis`:
`'increasing'` when the mean of the last 3 daily counts exceeds the mean of
the first 3, else `'stable'`; a NaN mean (empty series) compares false and
also yields `'stable'`. -/
def trendLabel (daily : List Nat) : String :=
  match pyMean ((daily.drop (daily.length - 3)).map fun n => (n : Rat)),
        pyMean ((daily.take 3).map fun n => (n : Rat)) with
  | some t, some h => if t > h then "increasing" else "stable"
  | _, _ => "stable"

/-- The mapping returned by `get_alert_trends_analysis` (this method has no
error path: empty selections produce zeros, empty tables and NaN-driven
`'stable'` trends). -/
structure AlertResult where
  total_health_alerts : Nat
  total_feeding_delays : Nat
  avg_health_alerts_per_day : Rat
  avg_feeding_delays_per_day : Rat
  peak_health_alert_hours : List (Int × Nat)
  peak_feeding_issue_hours : List (Int × Nat)
  pets_with_frequent_health_alerts : List (Nat × String × Nat)
  pets_with_feeding_issues : List (Nat × String × Nat)
  staff_alert_response : List (Nat × Nat)
  daily_health_trend : List (Int × Nat)
  daily_feeding_trend : List (Int × Nat)
  health_alerts_trend : String
  feeding_delays_trend : String
deriving Repr, DecidableEq

/-- `OperationsAnalyzer.get_alert_trends_analysis`: medical activities are
health alerts; feeding activities whose hour is outside the whitelist are
feeding delays; daily/hourly counts, per-pet and per-staff breakdowns, and
the 3-point trend labels. -/
def get_alert_trends_analysis (acts : List Activity) (days : Option Int)
    (now : Int) : AlertResult :=
  let d := resolveDays days ANALYSIS_WINDOWS.medium_term
  let recent := acts.filter fun r => windowCutoff now d ≤ r.ts
  let health := recent.filter fun r => r.activity_type = "medical"
  let feeding := recent.filter fun r => r.activity_type = "feeding"
  let delays := feeding.filter fun r => r.hour ∉ normal_feeding_hours
  let dailyCounts : List Activity → List (Int × Nat) := fun rows =>
    (groupKeys intLe (fun r => r.date) rows).map fun day =>
      (day, (rows.filter fun r => r.date = day).length)
  let hourlyCounts : List Activity → List (Int × Nat) := fun rows =>
    (groupKeys intLe (fun r => r.hour) rows).map fun h =>
      (h, (rows.filter fun r => r.hour = h).length)
  let top3 : List (Int × Nat) → List (Int × Nat) := fun rows =>
    (rows.insertionSort fun a b => decide (b.2 ≤ a.2) = true).take 3
  let petCounts : List Activity → List (Nat × String × Nat) := fun rows =>
    (groupKeys idNameLe (fun r => (r.pet_id, r.pet_name)) rows).map fun k =>
      (k.1, k.2, (rows.filter fun r => (r.pet_id, r.pet_name) = k).length)
  { total_health_alerts := health.length,
    total_feeding_delays := delays.length,
    avg_health_alerts_per_day := (health.length : Rat) / (d : Rat),
    avg_feeding_delays_per_day := (delays.length : Rat) / (d : Rat),
    peak_health_alert_hours := top3 (hourlyCounts health),
    peak_feeding_issue_hours := top3 (hourlyCounts delays),
    pets_with_frequent_health_alerts :=
      (petCounts health).filter fun p => p.2.2 > 2,
    pets_with_feeding_issues :=
      (petCounts delays).filter fun p => p.2.2 > 1,
    staff_alert_response :=
      (groupKeys intLe (fun r => (r.staff_id : Int)) health).map fun sid =>
        (sid.toNat, (health.filter fun r => (r.staff_id : Int) = sid).length),
    daily_health_trend := dailyCounts health,
    daily_feeding_trend := dailyCounts delays,
    health_alerts_trend := trendLabel ((dailyCounts health).map (·.2)),
    feeding_delays_trend := trendLabel ((dailyCounts delays).map (·.2)) }

/-- `OperationsAnalyzer._calculate_staff_score`: 50.0 for an error result or
an empty rating distribution, else `(excellent·100 + satisfactory·70) /
total_staff` capped at 100. -/
def calculateStaffScore (staff_analysis : Except String StaffResult) : Rat :=
  match staff_analysis with
  | .error _ => 50
  | .ok r =>
    let dist := r.performance_distribution
    let total_staff := dist.excellent + dist.satisfactory + dist.below_target
    if total_staff = 0 then 50
    else
      min 100 (((dist.excellent : Rat) * 100 + (dist.satisfactory : Rat) * 70) / total_staff)

/-- `OperationsAnalyzer._calculate_alert_score`: 50.0 for an error result
(the alert analysis never errors, so this branch is dead in the pipeline),
else 100 minus capped penalties for health alerts and feeding delays,
floored at 0. -/
def calculateAlertScore (alert_analysis : Except String AlertResult) : Rat :=
  match alert_analysis with
  | .error _ => 50
  | .ok r =>
    let health_penalty := min 30 (r.avg_health_alerts_per_day * 5)
    let feeding_penalty := min 20 (r.avg_feeding_delays_per_day * 10)
    max 0 (100 - health_penalty - feeding_penalty)

/-- `OperationsAnalyzer._generate_recommendations`: a fixed ordered list of
messages, each emitted under its threshold condition, with a fallback
message when none trigger. -/
def generateRecommendations (grooming : Except String GroomResult)
    (staff : Except String StaffResult) (alerts : Except String AlertResult) :
    List String :=
  let recs : List String :=
    (match grooming with
     | .ok g =>
       if g.pets_overdue_grooming > 0 then
         ["Schedule grooming for " ++ toString g.pets_overdue_grooming ++ " overdue pets"]
       else []
     | .error _ => [])
    ++
    (match staff with
     | .ok s =>
       if s.staff_needing_support.length > 0 then
         ["Provide additional training/support to "
           ++ toString s.staff_needing_support.length ++ " staff members"]
       else []
     | .error _ => [])
    ++
    (match alerts with
     | .ok a =>
       (if a.avg_health_alerts_per_day > 2 then
          ["Review health monitoring protocols - high alert frequency detected"]
        else [])
       ++
       (if a.avg_feeding_delays_per_day > 1 then
          ["Optimize feeding schedules to reduce delays"]
        else [])
     | .error _ => [])
  if recs.isEmpty then
    ["Operations are running smoothly - maintain current standards"]
  else recs

deriving instance DecidableEq for Except

/-- The mapping returned by `get_operations_summary`. -/
structure OpsSummary where
  operations_score : Rat
  grooming_operations : Except String GroomResult
  staff_performance : Except String StaffResult
  alert_management : Except String AlertResult
  key_recommendations : List String
deriving Repr, DecidableEq

/-- `OperationsAnalyzer.get_operations_summary`: run the three analyses at
their default windows, take the grooming compliance (`.get(...)` default 0 on
an error result), the staff score and the alert score, and report their
unweighted mean rounded to one decimal plus the recommendations. -/
def get_operations_summary (staff : List Staff) (acts : List Activity)
    (now : Int) : OpsSummary :=
  let grooming_analysis := get_grooming_cleaning_frequency acts none now
  let staff_analysis := get_staff_performance_analysis staff acts none now
  let alert_analysis : Except String AlertResult :=
    .ok (get_alert_trends_analysis acts none now)
  let grooming_score : Rat :=
    match grooming_analysis with
    | .ok g => g.grooming_schedule_compliance
    | .error _ => 0
  let staff_score := calculateStaffScore staff_analysis
  let alert_score := calculateAlertScore alert_analysis
  { operations_score := pyRound 1 ((grooming_score + staff_score + alert_score) / 3),
    grooming_operations := grooming_analysis,
    staff_performance := staff_analysis,
    alert_management := alert_analysis,
    key_recommendations :=
      generateRecommendations grooming_analysis staff_analysis alert_analysis }

/-! ## Concrete fixtures used by the claim theorems -/

/-- A reference "current instant": day 100, midnight. -/
def now100 : Int := 100 * 86400

/-- A play activity for pet "Rex" at a given timestamp and duration. -/
def rexActivity (tsv : Int) (dur : Rat) : Activity :=
  { pet_id := 1, pet_name := "Rex", activity_type := "play", ts := tsv,
    date := dateOf tsv, hour := hourOf tsv, day_of_week := (dateOf tsv + 3).emod 7,
    duration_minutes := dur, staff_id := 1, notes := "" }

/-- Rex's surviving records: 30 and 45 minutes on two distinct days inside
the 30-day window before `now100`. -/
def rexActs : List Activity := [rexActivity (99 * 86400) 30, rexActivity (98 * 86400) 45]

/-- The single output row of `get_avg_activity_time_per_pet` on `rexActs`. -/
def rexResultRow : PetAvgRow :=
  { pet_id := 1, pet_name := "Rex", avg_daily_minutes := 75/2,
    avg_daily_activities := 1, activity_status := "low" }

/-- A single grooming session for Rex on day 99, inside the 30-day window of
both day 100 and day 110. -/
def rexGroomActs : List Activity :=
  [{ rexActivity (99 * 86400) 30 with activity_type := "grooming" }]

/-- A transformed environment reading with in-band measurements. -/
def sampleEnvReading (tsv : Int) : EnvReading :=
  { ts := tsv, kennel_section := "A", date := dateOf tsv, hour := hourOf tsv,
    temperature_f := 70, humidity_percent := 50, noise_level_db := 38,
    temp_comfort := "comfortable", humidity_comfort := "comfortable",
    noise_comfort := "normal" }

/-- The raw staff row of the spec's example scenario: a 09:00–17:00 shift
with 10 completed tasks. -/
def exampleShiftRow : RawStaff :=
  { staff_id := 1, staff_name := "Alex", shift_start := 9 * 3600,
    shift_end := 17 * 3600, tasks_completed := some 10 }

/-- A raw staff row whose shift ends the instant it starts (zero duration). -/
def zeroDurationShiftRow : RawStaff :=
  { staff_id := 2, staff_name := "Bo", shift_start := 9 * 3600,
    shift_end := 9 * 3600, tasks_completed := some 3 }

/-- An environment reading loud enough to be a noise alert (48 dB > 45). -/
def loudReading (tsv : Int) : EnvReading :=
  { ts := tsv, kennel_section := "B", date := dateOf tsv, hour := hourOf tsv,
    temperature_f := 70, humidity_percent := 50, noise_level_db := 48,
    temp_comfort := "comfortable", humidity_comfort := "comfortable",
    noise_comfort := "loud" }

/-- The daily summary row produced for day 99 when only the environment
source has data on that date: the activity/staff aggregates are stored as
zeros (the source writes `0` or sums an empty selection), only the
environment averages use `None` (and here are defined, since readings
exist). -/
def envOnlySummaryRow : DailySummaryRow :=
  { date := 99, total_activities := 0, total_activity_minutes := 0,
    unique_pets := 0, avg_temperature := pyMean [70], avg_humidity := pyMean [50],
    avg_noise := pyMean [38], staff_shifts := 0, total_tasks := 0 }

/-- The claim's own averaging rule, stated from the spec's words for
comparison with the source's `get_avg_activity_time_per_pet`: per pet,
average the per-day duration sums over the distinct days on which the pet
has at least one in-window activity (NOT over the window length in days). -/
def specAvgDailyMinutes (acts : List Activity) (days : Option Int) (now : Int)
    (pid : Nat) (pname : String) : Rat :=
  let recent := acts.filter fun r =>
    windowCutoff now (resolveDays days ANALYSIS_WINDOWS.medium_term) ≤ r.ts
  let mine := recent.filter fun r => r.pet_id = pid ∧ r.pet_name = pname
  let ds := (mine.map (·.date)).dedup
  pyRound 2 (pySum (ds.map fun dd =>
    pySum ((mine.filter fun r => r.date = dd).map (·.duration_minutes))) / ds.length)

/-! ## Claim theorems -/

/-- C5, counterexample. The claim asserts that with `target_tasks_per_hour`
= 1.2 and `min_tasks_per_hour` = 0.8 (the configured values) the rating
assigned to 1.25 tasks per hour is `'satisfactory'`; the source's
`_rate_staff_performance` tests `tasks_per_hour >= target` FIRST, and
1.25 ≥ 1.2, so the rating is not `'satisfactory'`. -/
theorem rate_one_and_quarter_not_satisfactory :
    OPERATIONS.staff_performance.target_tasks_per_hour = 1.2 ∧
    OPERATIONS.staff_performance.min_tasks_per_hour = 0.8 ∧
    rateStaffPerformance 1.25 ≠ "satisfactory" := by
  refine ⟨by norm_num [OPERATIONS], by norm_num [OPERATIONS], ?_⟩
  simp only [rateStaffPerformance, OPERATIONS]
  norm_num
  decide

/-- C5, amended: the transformed example row (09:00–17:00, 10 tasks) has
`tasks_per_hour` = 1.25, and with the configured target 1.2 and minimum 0.8
the rating assigned to 1.25 tasks per hour is `'excellent'` (not
`'satisfactory'`: 1.25 is at or above the target). -/
theorem example_shift_tasks_per_hour_excellent :
    (transform_staff_logs [exampleShiftRow]).map (fun s => (s.shift_duration_hours, s.tasks_per_hour))
      = [(8, 1.25)] ∧
    rateStaffPerformance 1.25 = "excellent" ∧
    OPERATIONS.staff_performance.target_tasks_per_hour = 1.2 ∧
    OPERATIONS.staff_performance.min_tasks_per_hour = 0.8 := by
  refine ⟨?_, by simp [rateStaffPerformance, OPERATIONS]; norm_num,
          by norm_num [OPERATIONS], by norm_num [OPERATIONS]⟩
  simp [transform_staff_logs, exampleShiftRow]
  norm_num

/-- C7: `_calculate_comfort_score` always returns one of
{50.0, 66.7, 83.3, 100.0} — each metric contributes 50 or 100, the mean of
the three is rounded to one decimal — and in particular never leaves
[0, 100], for every input statistics mapping. -/
theorem comfort_score_values (stats : OverallStats) :
    (calculateComfortScore stats = 50 ∨ calculateComfortScore stats = 66.7 ∨
     calculateComfortScore stats = 83.3 ∨ calculateComfortScore stats = 100) ∧
    0 ≤ calculateComfortScore stats ∧ calculateComfortScore stats ≤ 100 := by
  unfold calculateComfortScore
  split_ifs <;> norm_num [pyRound, halfEvenInt, pySum]

/-- C8: `transform_staff_logs` has no guard against a zero-duration shift:
every raw row whose tasks count coerces to a nonnegative number — including
one with `shift_end = shift_start` — survives into the output with its
duration `(shift_end − shift_start)/3600` (0 for the degenerate row, neither
dropped nor nulled) and with `tasks_per_hour` computed as the division of the
tasks count by that duration. For the zero-duration row the division by zero
is reached; rational division is total in this model (pandas produces
`inf`/`NaN` there), and the theorem exhibits the unguarded division itself:
the output's `tasks_per_hour` is literally `t / 0` when the duration is 0. -/
theorem zero_duration_shift_unguarded (df : List RawStaff) (r : RawStaff) (t : Rat)
    (hmem : r ∈ df) (ht : r.tasks_completed = some t) (hpos : 0 ≤ t) :
    ∃ out ∈ transform_staff_logs df,
      out.staff_id = r.staff_id ∧
      out.shift_duration_hours = ((r.shift_end - r.shift_start : Int) : Rat) / 3600 ∧
      out.tasks_per_hour = t / (((r.shift_end - r.shift_start : Int) : Rat) / 3600) := by
  refine ⟨{ staff_id := r.staff_id, staff_name := r.staff_name,
            shift_start := r.shift_start, shift_end := r.shift_end,
            shift_duration_hours := ((r.shift_end - r.shift_start : Int) : Rat) / 3600,
            shift_type := catShift (hourOf r.shift_start),
            tasks_completed := t,
            tasks_per_hour := t / (((r.shift_end - r.shift_start : Int) : Rat) / 3600) },
          ?_, rfl, rfl, rfl⟩
  unfold transform_staff_logs
  refine List.mem_filterMap.mpr ⟨r, hmem, ?_⟩
  rw [ht]
  simp [hpos]

/-- C8, witness: the zero-duration row with 3 tasks is kept, its duration is
0, and its `tasks_per_hour` is the reached division `3 / 0`. -/
theorem zero_duration_shift_unguarded_witness :
    ∃ out ∈ transform_staff_logs [zeroDurationShiftRow],
      out.staff_id = zeroDurationShiftRow.staff_id ∧
      out.shift_duration_hours =
        ((zeroDurationShiftRow.shift_end - zeroDurationShiftRow.shift_start : Int) : Rat) / 3600 ∧
      out.tasks_per_hour =
        (3 : Rat) / (((zeroDurationShiftRow.shift_end - zeroDurationShiftRow.shift_start : Int) : Rat) / 3600) :=
  zero_duration_shift_unguarded [zeroDurationShiftRow] zeroDurationShiftRow 3
    (by decide) (by decide) (by norm_num)

/-- C10: called without a `days` argument, `get_noise_level_alerts` uses the
7-day `short_term` window — its result equals the `days = 7` call and its
`alerts_per_day` divides the alert count by 7 — while every other windowed
analysis method of the three analyzers defaults to the 30-day `medium_term`
window. -/
theorem noise_alerts_default_window_seven :
    (∀ env now, get_noise_level_alerts env none now = get_noise_level_alerts env (some 7) now) ∧
    (∀ env now, (get_noise_level_alerts env none now).alerts_per_day =
      (((env.filter fun r => windowCutoff now 7 ≤ r.ts).filter
          fun r => r.noise_level_db > ENVIRONMENT.noise.alert_threshold).length : Rat)
        / ((7 : Int) : Rat)) ∧
    (∀ env b now, get_temperature_humidity_averages env none b now
      = get_temperature_humidity_averages env (some 30) b now) ∧
    (∀ env acts now, get_temperature_activity_correlation env acts none now
      = get_temperature_activity_correlation env acts (some 30) now) ∧
    (∀ acts now, get_avg_activity_time_per_pet acts none now
      = get_avg_activity_time_per_pet acts (some 30) now) ∧
    (∀ acts now, get_feeding_frequency_analysis acts none now
      = get_feeding_frequency_analysis acts (some 30) now) ∧
    (∀ acts now, get_weight_trend_analysis acts none now
      = get_weight_trend_analysis acts (some 30) now) ∧
    (∀ acts now, get_grooming_cleaning_frequency acts none now
      = get_grooming_cleaning_frequency acts (some 30) now) ∧
    (∀ staff acts now, get_staff_performance_analysis staff acts none now
      = get_staff_performance_analysis staff acts (some 30) now) ∧
    (∀ acts now, get_alert_trends_analysis acts none now
      = get_alert_trends_analysis acts (some 30) now) ∧
    ANALYSIS_WINDOWS.short_term = 7 ∧ ANALYSIS_WINDOWS.medium_term = 30 :=
  ⟨fun _ _ => rfl, fun _ _ => rfl, fun _ _ _ => rfl, fun _ _ _ => rfl,
   fun _ _ => rfl, fun _ _ => rfl, fun _ _ => rfl, fun _ _ => rfl,
   fun _ _ _ => rfl, fun _ _ => rfl, rfl, rfl⟩

/-- C9, counterexample. The claim asserts that two invocations of an analysis
method with the same configuration, snapshot and `days` argument return
identical results regardless of when each invocation runs; but every method
windows its data from the implicit current instant (`datetime.now()`), so the
same call made at day 0 (one noise alert in window) and at day 100 (the
reading has aged out) returns different results. -/
theorem analysis_not_invocation_time_invariant :
    (get_noise_level_alerts [loudReading 0] none 0).total_alerts = 1 ∧
    (get_noise_level_alerts [loudReading 0] none now100).total_alerts = 0 ∧
    get_noise_level_alerts [loudReading 0] none 0
      ≠ get_noise_level_alerts [loudReading 0] none now100 := by
  refine ⟨by decide, by decide, fun h => ?_⟩
  have h1 : (get_noise_level_alerts [loudReading 0] none 0).total_alerts
      = (get_noise_level_alerts [loudReading 0] none now100).total_alerts := by rw [h]
  rw [show (get_noise_level_alerts [loudReading 0] none 0).total_alerts = 1 from by decide,
      show (get_noise_level_alerts [loudReading 0] none now100).total_alerts = 0 from by decide] at h1
  exact one_ne_zero h1

/-- C9, amended: every analysis call is a pure function of (configuration,
captured snapshot, window parameter, invocation instant) — at a fixed
instant results are determined by those inputs alone — but the instant can
enter a method beyond window membership, so cutoff-equivalent invocation
times do NOT agree in general: `get_grooming_cleaning_frequency` reads the
current instant again in `days_since_last_groom`, and the second and third
conjuncts exhibit two instants (day 100 and day 110) that admit exactly the
same records yet yield 0 vs 1 overdue pets. For the cited
`get_avg_activity_time_per_pet` the instant enters only through the window
cutoff: two invocations with the same snapshot and `days` whose cutoffs
admit exactly the same records return identical results (first conjunct). -/
theorem analysis_purity_scope :
    (∀ (acts : List Activity) (days : Option Int) (now₁ now₂ : Int),
      (∀ r ∈ acts,
        (windowCutoff now₁ (resolveDays days ANALYSIS_WINDOWS.medium_term) ≤ r.ts ↔
         windowCutoff now₂ (resolveDays days ANALYSIS_WINDOWS.medium_term) ≤ r.ts)) →
      get_avg_activity_time_per_pet acts days now₁
        = get_avg_activity_time_per_pet acts days now₂) ∧
    (∀ r ∈ rexGroomActs,
      (windowCutoff now100 (resolveDays none ANALYSIS_WINDOWS.medium_term) ≤ r.ts ↔
       windowCutoff (110 * 86400) (resolveDays none ANALYSIS_WINDOWS.medium_term) ≤ r.ts)) ∧
    (get_grooming_cleaning_frequency rexGroomActs none now100).toOption.map
      (·.pets_overdue_grooming) = some 0 ∧
    (get_grooming_cleaning_frequency rexGroomActs none (110 * 86400)).toOption.map
      (·.pets_overdue_grooming) = some 1 := by
  refine ⟨?_, by decide, by decide, by decide⟩
  intro acts days now₁ now₂ h
  have hfc : ∀ r ∈ acts,
      decide (windowCutoff now₁ (resolveDays days ANALYSIS_WINDOWS.medium_term) ≤ r.ts)
        = decide (windowCutoff now₂ (resolveDays days ANALYSIS_WINDOWS.medium_term) ≤ r.ts) := by
    intro r hr
    rw [decide_eq_decide]
    exact h r hr
  unfold get_avg_activity_time_per_pet
  dsimp only
  rw [List.filter_congr hfc]

/-- C9, amended, witness: shifting the invocation instant by one hour does
not change `get_avg_activity_time_per_pet` when no record's window
membership changes. -/
theorem analysis_purity_scope_witness :
    get_avg_activity_time_per_pet rexActs none now100
      = get_avg_activity_time_per_pet rexActs none (now100 + 3600) :=
  analysis_purity_scope.1 rexActs none now100 (now100 + 3600) (by decide)

/-- C2, counterexample. The claim asserts an error mapping whenever the
hourly join has fewer than 2 rows, in particular for exactly one row; but the
source only checks `merged_df.empty`, so a one-row join returns a normal
result — whose Pearson correlations are NaN (`none`), since a single point
has no defined correlation. -/
theorem one_row_join_returns_ok :
    (mergedHourly [sampleEnvReading (99 * 86400 + 10 * 3600)]
        [rexActivity (99 * 86400 + 10 * 3600) 30] (windowCutoff now100 30)).length = 1 ∧
    (get_temperature_activity_correlation [sampleEnvReading (99 * 86400 + 10 * 3600)]
        [rexActivity (99 * 86400 + 10 * 3600) 30] none now100).isOk = true ∧
    (get_temperature_activity_correlation [sampleEnvReading (99 * 86400 + 10 * 3600)]
        [rexActivity (99 * 86400 + 10 * 3600) 30] none now100).toOption.map
      (fun c => (c.data_points, c.temperature_activity_correlation)) = some (1, none) := by
  refine ⟨by decide, by decide, by decide⟩

/-- C2, amended: `get_temperature_activity_correlation` returns the error
mapping exactly when the hourly `(date, hour)` inner join is empty; a
one-row join instead yields a normal result with undefined (NaN)
correlation values. -/
theorem correlation_error_iff_empty_join (env : List EnvReading)
    (acts : List Activity) (days : Option Int) (now : Int) :
    get_temperature_activity_correlation env acts days now
        = .error "No matching data found for correlation analysis"
      ↔ mergedHourly env acts
          (windowCutoff now (resolveDays days ANALYSIS_WINDOWS.medium_term)) = [] := by
  unfold get_temperature_activity_correlation
  dsimp only
  rcases hm : mergedHourly env acts
      (windowCutoff now (resolveDays days ANALYSIS_WINDOWS.medium_term)) with _ | ⟨a, l⟩
  · simp
  · simp

/-- C1, counterexample. The claim asserts that EVERY analysis method of the
three analyzers returns a mapping with a single error key when its
filtered/windowed data is empty. `PetWellnessAnalyzer.get_avg_activity_time_per_pet`
refutes this: on a snapshot whose only record is outside the window it
returns an empty table (not an error mapping — the method returns a
DataFrame and has no error path), and
`EnvironmentalAnalyzer.get_temperature_humidity_averages` likewise returns
its normal mapping with zero readings and NaN (`none`) means instead of an
error key. -/
theorem empty_window_returns_plain_table :
    get_avg_activity_time_per_pet [rexActivity 0 30] none now100 = [] ∧
    (get_temperature_humidity_averages [sampleEnvReading 0] none true now100).overall.total_readings = 0 ∧
    (get_temperature_humidity_averages [sampleEnvReading 0] none true now100).overall.avg_temperature = none :=
  ⟨by decide, by decide, by decide⟩

/-- C1, amended: the empty-input soft-failure contract holds for exactly the
three methods with an error path — `get_grooming_cleaning_frequency` and
`get_staff_performance_analysis` (operations) return their error mapping when
the windowed selection is empty, and `get_temperature_activity_correlation`
(environmental) when the hourly join is empty — while the remaining analysis
methods return plain empty/NaN-valued results (never raising), as
`get_avg_activity_time_per_pet` returning an empty table shows. -/
theorem soft_failure_only_three_methods :
    (∀ acts days now,
      acts.filter (fun r => r.activity_type = "grooming" ∧
          windowCutoff now (resolveDays days ANALYSIS_WINDOWS.medium_term) ≤ r.ts) = [] →
      get_grooming_cleaning_frequency acts days now
        = .error "No grooming data found for the specified period") ∧
    (∀ staff acts days now,
      staff.filter (fun s =>
          windowCutoff now (resolveDays days ANALYSIS_WINDOWS.medium_term) ≤ s.shift_start) = [] →
      get_staff_performance_analysis staff acts days now
        = .error "No staff data found for the specified period") ∧
    (∀ env acts days now,
      mergedHourly env acts (windowCutoff now (resolveDays days ANALYSIS_WINDOWS.medium_term)) = [] →
      get_temperature_activity_correlation env acts days now
        = .error "No matching data found for correlation analysis") ∧
    (∀ acts days now,
      acts.filter (fun r =>
          windowCutoff now (resolveDays days ANALYSIS_WINDOWS.medium_term) ≤ r.ts) = [] →
      get_avg_activity_time_per_pet acts days now = []) := by
  refine ⟨?_, ?_, ?_, ?_⟩
  · intro acts days now h
    unfold get_grooming_cleaning_frequency
    dsimp only
    rw [h]
    rfl
  · intro staff acts days now h
    unfold get_staff_performance_analysis
    dsimp only
    rw [h]
    rfl
  · intro env acts days now h
    unfold get_temperature_activity_correlation
    dsimp only
    rw [h]
    rfl
  · intro acts days now h
    unfold get_avg_activity_time_per_pet
    dsimp only
    rw [h]
    rfl

/-- C1, amended, witness: the three error mappings on concretely empty
selections, and the plain empty table of the wellness method. -/
theorem soft_failure_only_three_methods_witness :
    get_grooming_cleaning_frequency [rexActivity 0 30] none now100
      = .error "No grooming data found for the specified period" ∧
    get_staff_performance_analysis [] [] none 0
      = .error "No staff data found for the specified period" ∧
    get_temperature_activity_correlation [] [] none 0
      = .error "No matching data found for correlation analysis" ∧
    get_avg_activity_time_per_pet [rexActivity 0 30] none now100 = [] :=
  ⟨soft_failure_only_three_methods.1 [rexActivity 0 30] none now100 (by decide),
   soft_failure_only_three_methods.2.1 [] [] none 0 rfl,
   soft_failure_only_three_methods.2.2.1 [] [] none 0 rfl,
   soft_failure_only_three_methods.2.2.2 [rexActivity 0 30] none now100 (by decide)⟩

/-- C3, counterexample. The claim asserts that for a date where a source has
no rows its aggregate fields are null (not zero) except `total_activities`
and `staff_shifts`; but for a date present only in the environment table the
source stores `total_activity_minutes = 0`, `unique_pets = 0` and
`total_tasks = 0` — zeros, not nulls. Only the environment averages are ever
`None`. -/
theorem summary_absent_source_zero_not_null :
    create_daily_summary [] [sampleEnvReading (99 * 86400)] [] = [envOnlySummaryRow] ∧
    envOnlySummaryRow.total_activity_minutes = 0 ∧
    envOnlySummaryRow.unique_pets = 0 ∧
    envOnlySummaryRow.total_tasks = 0 ∧
    envOnlySummaryRow.avg_temperature = some 70 := by
  refine ⟨rfl, rfl, rfl, rfl, ?_⟩
  simp [envOnlySummaryRow, pyMean, pySum]

/-- C3, amended: `create_daily_summary` produces exactly one row per calendar
date present in the union of the three transformed tables and no other rows;
for each date, the environment averages are null (`None`) exactly when no
environment rows exist on that date, while ALL activity and staff aggregates
of an absent source — `total_activities`, `total_activity_minutes`,
`unique_pets`, `staff_shifts`, `total_tasks` — are zero, not null. -/
theorem daily_summary_one_row_per_date (pet : List Activity)
    (env : List EnvReading) (staff : List Staff) :
    ((create_daily_summary pet env staff).map (·.date)).Nodup ∧
    (∀ d : Int, d ∈ (create_daily_summary pet env staff).map (·.date) ↔
      (d ∈ pet.map (·.date) ∨ d ∈ env.map (·.date) ∨
       d ∈ staff.map (fun s => dateOf s.shift_start))) ∧
    (∀ row ∈ create_daily_summary pet env staff,
      (pet.filter (fun r => r.date = row.date) = [] →
        row.total_activities = 0 ∧ row.total_activity_minutes = 0 ∧ row.unique_pets = 0) ∧
      (env.filter (fun r => r.date = row.date) = [] →
        row.avg_temperature = none ∧ row.avg_humidity = none ∧ row.avg_noise = none) ∧
      (env.filter (fun r => r.date = row.date) ≠ [] → row.avg_temperature ≠ none) ∧
      (staff.filter (fun s => dateOf s.shift_start = row.date) = [] →
        row.staff_shifts = 0 ∧ row.total_tasks = 0)) := by
  have hdates :
      (create_daily_summary pet env staff).map (·.date) =
        ((pet.map (·.date) ++ env.map (·.date)
          ++ staff.map (fun s => dateOf s.shift_start)).dedup).insertionSort
          (fun a b => intLe a b = true) := by
    unfold create_daily_summary
    dsimp only
    rw [List.map_map]
    exact List.map_id _
  refine ⟨?_, ?_, ?_⟩
  · rw [hdates]
    exact ((List.perm_insertionSort _ _).nodup_iff).mpr (List.nodup_dedup _)
  · intro d
    rw [hdates, (List.perm_insertionSort _ _).mem_iff, List.mem_dedup,
        List.mem_append, List.mem_append]
    tauto
  · intro row hrow
    unfold create_daily_summary at hrow
    dsimp only at hrow
    obtain ⟨d, _, hmk⟩ := List.mem_map.mp hrow
    refine ⟨?_, ?_, ?_, ?_⟩
    · intro hpet
      have hd : row.date = d := by rw [← hmk]
      rw [hd] at hpet
      rw [← hmk]
      simp only [hpet]
      exact ⟨rfl, rfl, rfl⟩
    · intro henv
      have hd : row.date = d := by rw [← hmk]
      rw [hd] at henv
      rw [← hmk]
      simp only [henv]
      exact ⟨rfl, rfl, rfl⟩
    · intro henv
      have hd : row.date = d := by rw [← hmk]
      rw [hd] at henv
      rw [← hmk]
      dsimp only
      unfold pyMean
      rw [if_neg]
      · exact fun h => Option.noConfusion h
      · simp only [List.isEmpty_eq_true, List.map_eq_nil_iff]
        exact henv
    · intro hstaff
      have hd : row.date = d := by rw [← hmk]
      rw [hd] at hstaff
      rw [← hmk]
      simp only [hstaff]
      exact ⟨rfl, rfl⟩

/-- C3, amended, witness: on the concrete env-only-day input the summary has
no duplicate dates, day 99 is present, and the single row carries zero
activity/staff aggregates with defined environment averages. -/
theorem daily_summary_one_row_per_date_witness :
    ((create_daily_summary [] [sampleEnvReading (99 * 86400)] []).map (·.date)).Nodup ∧
    ((99 : Int) ∈ (create_daily_summary [] [sampleEnvReading (99 * 86400)] []).map (·.date)) ∧
    envOnlySummaryRow.total_activities = 0 ∧
    envOnlySummaryRow.total_activity_minutes = 0 ∧
    envOnlySummaryRow.unique_pets = 0 ∧
    envOnlySummaryRow.avg_temperature ≠ none ∧
    envOnlySummaryRow.staff_shifts = 0 ∧
    envOnlySummaryRow.total_tasks = 0 := by
  obtain ⟨h1, h2, h3⟩ :=
    daily_summary_one_row_per_date [] [sampleEnvReading (99 * 86400)] []
  have hmem : envOnlySummaryRow ∈ create_daily_summary [] [sampleEnvReading (99 * 86400)] [] :=
    List.Mem.head _
  obtain ⟨ha, he, hne, hs⟩ := h3 envOnlySummaryRow hmem
  obtain ⟨ha1, ha2, ha3⟩ := ha rfl
  obtain ⟨hs1, hs2⟩ := hs rfl
  exact ⟨h1, (h2 99).mpr (Or.inr (Or.inl (by decide))), ha1, ha2, ha3,
         hne (by decide), hs1, hs2⟩

/-- Helper: `_rate_staff_performance` returns one of the three rating labels. -/
theorem rateStaffPerformance_cases (x : Rat) :
    rateStaffPerformance x = "excellent" ∨ rateStaffPerformance x = "satisfactory" ∨
    rateStaffPerformance x = "below_target" := by
  unfold rateStaffPerformance
  dsimp only
  split_ifs <;> simp

/-- Helper: a groupby has no groups exactly on an empty table. -/
theorem groupKeys_eq_nil_iff {α κ : Type} (le : κ → κ → Bool) (key : α → κ)
    [DecidableEq κ] (rows : List α) :
    groupKeys le key rows = [] ↔ rows = [] := by
  unfold groupKeys
  rw [← List.length_eq_zero, (List.perm_insertionSort _ _).length_eq,
      List.length_eq_zero, List.dedup_eq_nil, List.map_eq_nil_iff]

/-- Helper: a nonempty list in which every element carries one of the three
rating labels contributes to at least one of the three rating counts. -/
theorem three_filter_length_pos {β : Type} (l : List β) (rating : β → String)
    (hl : l ≠ [])
    (hcases : ∀ p ∈ l, rating p = "excellent" ∨ rating p = "satisfactory" ∨
      rating p = "below_target") :
    0 < (l.filter (fun p => rating p = "excellent")).length
        + (l.filter (fun p => rating p = "satisfactory")).length
        + (l.filter (fun p => rating p = "below_target")).length := by
  obtain ⟨p, hp⟩ := List.exists_mem_of_ne_nil l hl
  rcases hcases p hp with hc | hc | hc
  · have hmem : p ∈ l.filter (fun q => rating q = "excellent") :=
      List.mem_filter.mpr ⟨hp, by simp [hc]⟩
    have := List.length_pos_of_mem hmem
    omega
  · have hmem : p ∈ l.filter (fun q => rating q = "satisfactory") :=
      List.mem_filter.mpr ⟨hp, by simp [hc]⟩
    have := List.length_pos_of_mem hmem
    omega
  · have hmem : p ∈ l.filter (fun q => rating q = "below_target") :=
      List.mem_filter.mpr ⟨hp, by simp [hc]⟩
    have := List.length_pos_of_mem hmem
    omega

/-- Helper: a successful staff performance analysis has a nonzero rating
distribution (the error mapping is returned before an empty table can
arise, and every analyzed staff member is rated with one of the three
labels). -/
theorem staff_analysis_total_pos (staff : List Staff) (acts : List Activity)
    (days : Option Int) (now : Int) (r : StaffResult)
    (h : get_staff_performance_analysis staff acts days now = .ok r) :
    0 < r.performance_distribution.excellent + r.performance_distribution.satisfactory
        + r.performance_distribution.below_target := by
  unfold get_staff_performance_analysis at h
  dsimp only at h
  split at h
  · exact absurd h (by simp)
  · rename_i hne
    injection h with h'
    subst h'
    dsimp only
    have hrecne : staff.filter (fun s =>
        decide (windowCutoff now (resolveDays days ANALYSIS_WINDOWS.medium_term)
          ≤ s.shift_start)) ≠ [] := by
      intro hnil
      rw [hnil] at hne
      simp at hne
    have hkeys : groupKeys idNameLe (fun s => (s.staff_id, s.staff_name))
        (staff.filter (fun s =>
          decide (windowCutoff now (resolveDays days ANALYSIS_WINDOWS.medium_term)
            ≤ s.shift_start))) ≠ [] := by
      rw [Ne, groupKeys_eq_nil_iff]
      exact hrecne
    exact three_filter_length_pos _ (fun p : StaffPerfRow => p.performance_rating)
      (by
        intro hnil
        rw [List.map_eq_nil_iff] at hnil
        exact hkeys hnil)
      (fun p hp => by
        obtain ⟨k, _, rfl⟩ := List.mem_map.mp hp
        exact rateStaffPerformance_cases _)

/-- Helper: the staff score fraction never exceeds 100, so the source's
`min(100, ...)` cap is inert. -/
theorem staff_score_le_hundred (e s b : Nat) (h : 0 < e + s + b) :
    ((e : Rat) * 100 + (s : Rat) * 70) / ((e + s + b : Nat) : Rat) ≤ 100 := by
  rw [div_le_iff₀ (by positivity)]
  push_cast
  nlinarith

/-- C4, counterexample. The claim asserts the staff sub-score is 0 when there
are no staff; the source's `_calculate_staff_score` returns 50.0 both for an
error result and for an empty distribution. With no data at all the actual
`operations_score` is `round1((0 + 50 + 100)/3) = 50`, whereas the claim's
formula (staff sub-score 0) predicts `round1((0 + 0 + 100)/3) = 33.3`. -/
theorem no_staff_score_fifty_not_zero :
    calculateStaffScore (get_staff_performance_analysis [] [] none 0) = 50 ∧
    (get_operations_summary [] [] 0).operations_score = 50 ∧
    pyRound 1 (((0 : Rat) + 0 + 100) / 3) = 33.3 ∧
    (get_operations_summary [] [] 0).operations_score ≠ pyRound 1 (((0 : Rat) + 0 + 100) / 3) := by
  have h1 : calculateStaffScore (get_staff_performance_analysis [] [] none 0) = 50 := by decide
  have h2 : (get_operations_summary [] [] 0).operations_score = 50 := by
    unfold get_operations_summary
    dsimp only
    norm_num [get_grooming_cleaning_frequency, get_staff_performance_analysis,
      get_alert_trends_analysis, calculateStaffScore, calculateAlertScore,
      groupKeys, trendLabel, pyMean, pySum, pyRound, halfEvenInt]
  have h3 : pyRound 1 (((0 : Rat) + 0 + 100) / 3) = 33.3 := by
    norm_num [pyRound, halfEvenInt]
  exact ⟨h1, h2, h3, by rw [h2, h3]; norm_num⟩

/-- C4, amended: `operations_score` is the unweighted mean, rounded to one
decimal, of (a) the grooming schedule compliance percentage (0 when the
grooming analysis returned its error mapping), (b) a staff score equal to
`(excellent·100 + satisfactory·70) / total_staff` — which is 50, not 0, when
there are no staff (the staff analysis then returns its error mapping, and
`_calculate_staff_score` maps both an error and an empty distribution to
50.0; its `min(100, ...)` cap is inert) — and (c) an alert score equal to
`100 − min(30, healthAlertsPerDay·5) − min(20, feedingDelaysPerDay·10)`,
floored at 0. -/
theorem operations_score_composition (staff : List Staff) (acts : List Activity)
    (now : Int) :
    (get_operations_summary staff acts now).operations_score =
      pyRound 1 ((
        (match get_grooming_cleaning_frequency acts none now with
         | .ok g => g.grooming_schedule_compliance
         | .error _ => 0) +
        (match get_staff_performance_analysis staff acts none now with
         | .ok r =>
             ((r.performance_distribution.excellent : Rat) * 100
               + (r.performance_distribution.satisfactory : Rat) * 70)
             / ((r.performance_distribution.excellent
                 + r.performance_distribution.satisfactory
                 + r.performance_distribution.below_target : Nat) : Rat)
         | .error _ => 50) +
        max 0 (100
          - min 30 ((get_alert_trends_analysis acts none now).avg_health_alerts_per_day * 5)
          - min 20 ((get_alert_trends_analysis acts none now).avg_feeding_delays_per_day * 10))) / 3) := by
  have hs : calculateStaffScore (get_staff_performance_analysis staff acts none now)
      = (match get_staff_performance_analysis staff acts none now with
         | .ok r =>
             ((r.performance_distribution.excellent : Rat) * 100
               + (r.performance_distribution.satisfactory : Rat) * 70)
             / ((r.performance_distribution.excellent
                 + r.performance_distribution.satisfactory
                 + r.performance_distribution.below_target : Nat) : Rat)
         | .error _ => 50) := by
    rcases hsa : get_staff_performance_analysis staff acts none now with msg | r
    · rfl
    · have hpos := staff_analysis_total_pos staff acts none now r hsa
      unfold calculateStaffScore
      dsimp only
      rw [if_neg (by omega)]
      exact min_eq_right (staff_score_le_hundred _ _ _ hpos)
  unfold get_operations_summary
  dsimp only
  rw [hs]
  rfl

/-- Helper: group-key membership characterizes the rows' keys. -/
theorem groupKeys_mem_iff {α κ : Type} (le : κ → κ → Bool) (key : α → κ)
    [DecidableEq κ] (rows : List α) (k : κ) :
    k ∈ groupKeys le key rows ↔ ∃ r ∈ rows, key r = k := by
  unfold groupKeys
  rw [(List.perm_insertionSort _ _).mem_iff, List.mem_dedup, List.mem_map]

/-- Helper: group keys are distinct. -/
theorem groupKeys_nodup {α κ : Type} (le : κ → κ → Bool) (key : α → κ)
    [DecidableEq κ] (rows : List α) : (groupKeys le key rows).Nodup := by
  unfold groupKeys
  exact ((List.perm_insertionSort _ _).nodup_iff).mpr (List.nodup_dedup _)

/-- Helper: the `(pet, date)` group keys belonging to a fixed pet are, up to
permutation, exactly that pet's distinct in-window dates. -/
theorem daily_keys_perm (recent : List Activity) (k1 : Nat) (k2 : String) :
    ((groupKeys idNameDateLe (fun r => (r.pet_id, r.pet_name, r.date)) recent).filter
        (fun kk => (kk.1, kk.2.1) = (k1, k2))).Perm
      ((((recent.filter (fun r => r.pet_id = k1 ∧ r.pet_name = k2)).map (·.date)).dedup).map
        (fun dd => (k1, k2, dd))) := by
  rw [List.perm_ext_iff_of_nodup ((groupKeys_nodup _ _ _).filter _)
      ((List.nodup_dedup _).map (fun a b hab => by
        have := congrArg (fun p : Nat × String × Int => p.2.2) hab
        simpa using this))]
  rintro ⟨kk1, kk2, kk3⟩
  simp only [List.mem_filter, groupKeys_mem_iff, List.mem_map, decide_eq_true_eq,
    Prod.mk.injEq, List.mem_dedup]
  constructor
  · rintro ⟨⟨r, hr, h1, h2, h3⟩, rfl, rfl⟩
    exact ⟨r.date, ⟨r, ⟨hr, h1, h2⟩, rfl⟩, rfl, rfl, h3⟩
  · rintro ⟨a, ⟨r, ⟨hr, h1, h2⟩, hdate⟩, rfl, rfl, rfl⟩
    exact ⟨⟨r, hr, h1, h2, hdate⟩, rfl, rfl⟩

/-- Helper: column sums are invariant under permutation. -/
theorem pySum_perm {A B : List Rat} (h : A.Perm B) : pySum A = pySum B := h.sum_eq

/-- Helper: a pet's rows of the `daily_activity` table carry, up to
permutation, one per-day duration sum per distinct in-window date of the pet,
and there are exactly as many rows as such dates. -/
theorem two_stage_sums (recent : List Activity) (k1 : Nat) (k2 : String) :
    ((List.filter (fun r => (r.pet_id, r.pet_name) = (k1, k2))
        (List.map (dailyRowOf recent)
          (groupKeys idNameDateLe (fun r => (r.pet_id, r.pet_name, r.date)) recent))).map
        (·.duration_minutes)).Perm
      ((((List.filter (fun r => r.pet_id = k1 ∧ r.pet_name = k2) recent).map (·.date)).dedup).map
        (fun dd => pySum ((List.filter (fun r => r.date = dd)
          (List.filter (fun r => r.pet_id = k1 ∧ r.pet_name = k2) recent)).map
            (·.duration_minutes))))
    ∧ (List.filter (fun r => (r.pet_id, r.pet_name) = (k1, k2))
        (List.map (dailyRowOf recent)
          (groupKeys idNameDateLe (fun r => (r.pet_id, r.pet_name, r.date)) recent))).length
      = (((List.filter (fun r => r.pet_id = k1 ∧ r.pet_name = k2) recent).map (·.date)).dedup).length := by
  have hpred : ((fun r : DailyActivityRow => decide ((r.pet_id, r.pet_name) = (k1, k2)))
      ∘ dailyRowOf recent) = (fun kk => decide ((kk.1, kk.2.1) = (k1, k2))) := rfl
  have hff : ∀ dd : Int,
      List.filter (fun r => decide ((r.pet_id, r.pet_name, r.date) = (k1, k2, dd))) recent
        = List.filter (fun r => decide (r.date = dd))
            (List.filter (fun r => decide (r.pet_id = k1 ∧ r.pet_name = k2)) recent) := by
    intro dd
    rw [List.filter_filter]
    apply List.filter_congr
    intro r _
    rw [← Bool.decide_and, decide_eq_decide]
    simp only [Prod.mk.injEq]
    tauto
  have hperm := daily_keys_perm recent k1 k2
  constructor
  · rw [List.filter_map, hpred, List.map_map]
    refine (hperm.map _).trans ?_
    rw [List.map_map]
    apply List.Perm.of_eq
    apply List.map_congr_left
    intro dd _
    show pySum ((List.filter
        (fun r => (r.pet_id, r.pet_name, r.date) = (k1, k2, dd)) recent).map
          (·.duration_minutes)) = _
    rw [hff dd]
  · rw [List.filter_map, hpred, List.length_map, hperm.length_eq, List.length_map]

/-- Helper: every output row's average equals the spec's averaging rule. -/
theorem avg_activity_row_spec (acts : List Activity) (days : Option Int) (now : Int)
    (row : PetAvgRow) (hrow : row ∈ get_avg_activity_time_per_pet acts days now) :
    row.avg_daily_minutes = specAvgDailyMinutes acts days now row.pet_id row.pet_name := by
  unfold get_avg_activity_time_per_pet at hrow
  dsimp only at hrow
  rw [(List.perm_insertionSort _ _).mem_iff] at hrow
  obtain ⟨k, hk, rfl⟩ := List.mem_map.mp hrow
  obtain ⟨k1, k2⟩ := k
  unfold specAvgDailyMinutes
  dsimp only
  obtain ⟨h1, h2⟩ := two_stage_sums
    (List.filter (fun r => decide (windowCutoff now
      (resolveDays days ANALYSIS_WINDOWS.medium_term) ≤ r.ts)) acts) k1 k2
  rw [pySum_perm h1, h2]

/-- Helper: the returned table is sorted descending by `avg_daily_minutes`. -/
theorem avg_activity_sorted (acts : List Activity) (days : Option Int) (now : Int) :
    List.Sorted (fun a b : PetAvgRow => b.avg_daily_minutes ≤ a.avg_daily_minutes)
      (get_avg_activity_time_per_pet acts days now) := by
  unfold get_avg_activity_time_per_pet
  dsimp only
  haveI htot : IsTotal PetAvgRow
      (fun a b => decide (b.avg_daily_minutes ≤ a.avg_daily_minutes) = true) :=
    ⟨fun a b => by
      rcases le_total b.avg_daily_minutes a.avg_daily_minutes with h | h
      · exact Or.inl (by simpa using h)
      · exact Or.inr (by simpa using h)⟩
  haveI htrans : IsTrans PetAvgRow
      (fun a b => decide (b.avg_daily_minutes ≤ a.avg_daily_minutes) = true) :=
    ⟨fun a b c hab hbc => by
      simp only [decide_eq_true_eq] at hab hbc ⊢
      exact le_trans hbc hab⟩
  exact (List.sorted_insertionSort _ _).imp (fun h => by simpa using h)

/-- C6: for every pet, `get_avg_activity_time_per_pet` averages the per-day
duration sums over the distinct days on which the pet has at least one
in-window activity — the denominator is the number of such days, not the
window length — and returns the rows sorted descending by
`avg_daily_minutes`. In particular Rex, with surviving records of 30 and 45
minutes on two distinct in-window days, gets `avg_daily_minutes` 37.5 and,
with the configured thresholds (60, 180), `activity_status` `'low'`. -/
theorem avg_activity_distinct_day_denominator :
    (∀ (acts : List Activity) (days : Option Int) (now : Int) (row : PetAvgRow),
      row ∈ get_avg_activity_time_per_pet acts days now →
      row.avg_daily_minutes = specAvgDailyMinutes acts days now row.pet_id row.pet_name) ∧
    (∀ (acts : List Activity) (days : Option Int) (now : Int),
      List.Sorted (fun a b : PetAvgRow => b.avg_daily_minutes ≤ a.avg_daily_minutes)
        (get_avg_activity_time_per_pet acts days now)) ∧
    get_avg_activity_time_per_pet rexActs none now100 = [rexResultRow] ∧
    rexResultRow.avg_daily_minutes = 37.5 ∧
    rexResultRow.activity_status = "low" ∧
    PET_WELLNESS.min_activity_minutes_per_day = 60 ∧
    PET_WELLNESS.max_activity_minutes_per_day = 180 := by
  refine ⟨avg_activity_row_spec, avg_activity_sorted, ?_,
    by norm_num [rexResultRow], by decide, by decide, by decide⟩
  simp only [get_avg_activity_time_per_pet, rexActs, rexActivity, groupKeys, resolveDays,
    ANALYSIS_WINDOWS, windowCutoff, dateOf, hourOf, idNameDateLe, idNameLe, strLe, intLe,
    now100]
  norm_num
  simp [List.dedup, List.pwFilter, List.insertionSort, List.orderedInsert, pySum, pyRound,
    halfEvenInt, catActivityLevel, PET_WELLNESS, rexResultRow, dailyRowOf]
  norm_num

/-- C6, witness: Rex's output row realizes the spec's averaging rule on the
concrete two-day snapshot, and that output is sorted. -/
theorem avg_activity_distinct_day_denominator_witness :
    rexResultRow.avg_daily_minutes
      = specAvgDailyMinutes rexActs none now100 rexResultRow.pet_id rexResultRow.pet_name ∧
    List.Sorted (fun a b : PetAvgRow => b.avg_daily_minutes ≤ a.avg_daily_minutes)
      (get_avg_activity_time_per_pet rexActs none now100) :=
  ⟨avg_activity_distinct_day_denominator.1 rexActs none now100 rexResultRow
      (by
        rw [avg_activity_distinct_day_denominator.2.2.1]
        exact List.mem_singleton.mpr rfl),
   avg_activity_distinct_day_denominator.2.1 rexActs none now100⟩
